import Mathlib

/-!
Verification development for the ride-booking core of a mobile ride-hailing
client (fare calculator, geodesic helpers, ride-status simulation, booking
reducer).  Real-number code (trigonometry) is embedded over ℝ; exact decimal
arithmetic (fares) is embedded over ℚ, with JavaScript's `Math.round x`
modelled as `⌊x + 1/2⌋`.  Timestamps (ISO strings produced from the current
time) are modelled as natural numbers.
-/

open Real

/-- Ride status union from the feature's type declarations:
`requested | accepted | arriving | in_progress | completed | cancelled`. -/
inductive RideStatus
  | requested
  | accepted
  | arriving
  | in_progress
  | completed
  | cancelled
deriving DecidableEq

/-- `MapLocation` from the map feature: latitude/longitude in degrees plus
optional address and name strings. -/
structure MapLocation where
  latitude : ℝ
  longitude : ℝ
  address : Option String := none
  name : Option String := none

/-- `RideType` from the feature's type declarations. -/
structure RideType where
  id : String
  name : String
  description : String
  capacity : ℕ
  icon : String
  priceMultiplier : ℚ
  estimatedPickupMinutes : Option ℕ := none

/-- `PriceFactors` from the feature's type declarations. -/
structure PriceFactors where
  basePrice : ℚ
  perKmRate : ℚ
  perMinuteRate : ℚ
  minimumFare : ℚ
  surgePricing : ℚ

/-- `PaymentMethod` from the feature's type declarations (the `type` union is
kept as a plain string). -/
structure PaymentMethod where
  id : String
  type : String
  label : String
  lastFour : Option String := none
  expiryDate : Option String := none
  isDefault : Bool

/-- `RouteStep` from the feature's type declarations. -/
structure RouteStep where
  instruction : String
  distance : ℚ
  duration : ℚ

/-- `RouteData` from the feature's type declarations; the GeoJSON geometry is
kept as its coordinate list. -/
structure RouteData where
  geometry : List (ℝ × ℝ)
  distance : ℚ
  duration : ℚ
  steps : List RouteStep

/-- `Ride` from the feature's type declarations.  The ISO-8601 timestamp
strings (`createdAt`, `updatedAt`, `estimatedArrival`) are modelled as
natural-number instants. -/
structure Ride where
  id : String
  status : RideStatus
  pickup : MapLocation
  destination : MapLocation
  fare : ℚ
  createdAt : ℕ
  updatedAt : ℕ
  estimatedArrival : Option ℕ := none
  route : Option RouteData := none
  rideType : RideType
  paymentMethod : PaymentMethod

/-- JavaScript `Math.round`: round half toward positive infinity,
`Math.round x = ⌊x + 1/2⌋`. -/
def jsRound (x : ℚ) : ℤ := ⌊x + 1 / 2⌋

/-- `calculatePrice` from `priceCalculation.ts`: base + per-km + per-minute
components, ride-type multiplier, surge multiplier, minimum-fare floor, then
rounding to two decimal places via `Math.round (x * 100) / 100`. -/
def calculatePrice (distance duration : ℚ) (rideType : RideType)
    (factors : PriceFactors) : ℚ :=
  let distancePrice := distance * factors.perKmRate
  let durationPrice := duration * factors.perMinuteRate
  let subtotal := factors.basePrice + distancePrice + durationPrice
  let withMultiplier := subtotal * rideType.priceMultiplier
  let withSurge := withMultiplier * factors.surgePricing
  let finalPrice := max withSurge factors.minimumFare
  (jsRound (finalPrice * 100) : ℚ) / 100

/-- JavaScript `Math.atan2 y x`, which agrees with the complex argument of
`x + y·i` (range `(-π, π]`, `atan2 0 0 = 0`). -/
noncomputable def arctan2 (y x : ℝ) : ℝ := Complex.arg ⟨x, y⟩

/-- `calculateDistance` helper of `RideTrackingScreen` (also duplicated in
`rideBookingApi.ts`): haversine great-circle distance in kilometers between
two latitude/longitude pairs in degrees, Earth radius 6371 km. -/
noncomputable def calculateDistance (lat1 lon1 lat2 lon2 : ℝ) : ℝ :=
  let R : ℝ := 6371
  let dLat := (lat2 - lat1) * π / 180
  let dLon := (lon2 - lon1) * π / 180
  let a := Real.sin (dLat / 2) * Real.sin (dLat / 2) +
    Real.cos (lat1 * π / 180) * Real.cos (lat2 * π / 180) *
      Real.sin (dLon / 2) * Real.sin (dLon / 2)
  let c := 2 * arctan2 (Real.sqrt a) (Real.sqrt (1 - a))
  R * c

/-- `calculateDistance` of `rideBookingApi.ts` / `RideBookingContext`, taking
`MapLocation`s; its body is the same haversine formula. -/
noncomputable def calculateDistanceLoc (loc1 loc2 : MapLocation) : ℝ :=
  let R : ℝ := 6371
  let dLat := (loc2.latitude - loc1.latitude) * (π / 180)
  let dLon := (loc2.longitude - loc1.longitude) * (π / 180)
  let a := Real.sin (dLat / 2) * Real.sin (dLat / 2) +
    Real.cos (loc1.latitude * (π / 180)) * Real.cos (loc2.latitude * (π / 180)) *
      Real.sin (dLon / 2) * Real.sin (dLon / 2)
  let c := 2 * arctan2 (Real.sqrt a) (Real.sqrt (1 - a))
  R * c

/-- `calculateBearing` helper of `RideTrackingScreen`: initial bearing
(radians) from the first point toward the second. -/
noncomputable def calculateBearing (lat1 lon1 lat2 lon2 : ℝ) : ℝ :=
  let dLon := (lon2 - lon1) * π / 180
  let lat1Rad := lat1 * π / 180
  let lat2Rad := lat2 * π / 180
  let y := Real.sin dLon * Real.cos lat2Rad
  let x := Real.cos lat1Rad * Real.sin lat2Rad -
    Real.sin lat1Rad * Real.cos lat2Rad * Real.cos dLon
  arctan2 y x

/-- Result record of `moveTowardTarget` (`{latitude, longitude, distance}`). -/
structure MoveResult where
  latitude : ℝ
  longitude : ℝ
  distance : ℝ

/-- `moveTowardTarget` helper of `RideTrackingScreen`: snap to the target when
closer than 0.05 km or when the step would overshoot, otherwise move along the
great circle toward the target by `speedKmh * intervalSeconds / 3600` km using
the forward spherical formula. -/
noncomputable def moveTowardTarget (currentLat currentLon targetLat targetLon
    speedKmh intervalSeconds : ℝ) : MoveResult :=
  let distance := calculateDistance currentLat currentLon targetLat targetLon
  if distance < 0.05 then
    ⟨targetLat, targetLon, 0⟩
  else
    let distanceToMove := speedKmh * intervalSeconds / 3600
    if distanceToMove ≥ distance then
      ⟨targetLat, targetLon, 0⟩
    else
      let bearing := calculateBearing currentLat currentLon targetLat targetLon
      let lat1Rad := currentLat * π / 180
      let lon1Rad := currentLon * π / 180
      let angularDistance := distanceToMove / 6371
      let newLat := Real.arcsin (Real.sin lat1Rad * Real.cos angularDistance +
        Real.cos lat1Rad * Real.sin angularDistance * Real.cos bearing)
      let newLon := lon1Rad + arctan2
        (Real.sin bearing * Real.sin angularDistance * Real.cos lat1Rad)
        (Real.cos angularDistance - Real.sin lat1Rad * Real.sin newLat)
      ⟨newLat * 180 / π, newLon * 180 / π, distance - distanceToMove⟩

/-- One iteration step of the driver simulation viewed as a self-map of
latitude/longitude pairs: `stepToward` of the specification. -/
noncomputable def stepToward (speedKmh intervalSeconds : ℝ) (target : ℝ × ℝ)
    (current : ℝ × ℝ) : ℝ × ℝ :=
  let r := moveTowardTarget current.1 current.2 target.1 target.2 speedKmh intervalSeconds
  (r.latitude, r.longitude)

/-- `getDistance` of the map-overlay interpolation module: haversine distance
in meters between two `[longitude, latitude]` pairs, Earth radius 6371e3 m. -/
noncomputable def getDistance (p q : ℝ × ℝ) : ℝ :=
  let R : ℝ := 6371e3
  let phi1 := p.2 * π / 180
  let phi2 := q.2 * π / 180
  let dPhi := (q.2 - p.2) * π / 180
  let dLam := (q.1 - p.1) * π / 180
  let a := Real.sin (dPhi / 2) * Real.sin (dPhi / 2) +
    Real.cos phi1 * Real.cos phi2 * Real.sin (dLam / 2) * Real.sin (dLam / 2)
  let c := 2 * arctan2 (Real.sqrt a) (Real.sqrt (1 - a))
  R * c

/-- `interpolatePoints` of the interpolation module: linear interpolation
between two `[longitude, latitude]` pairs. -/
def interpolatePoints (p q : ℝ × ℝ) (progress : ℝ) : ℝ × ℝ :=
  (p.1 + (q.1 - p.1) * progress, p.2 + (q.2 - p.2) * progress)

/-- The segment-scanning loop of `interpolate`, written with the residual
target distance: at each segment of length `d`, if
`currentDistance + d ≥ targetDistance` (equivalently `residual ≤ d`) the point
is interpolated inside this segment with fraction `residual / d`, otherwise
the loop continues with residual `residual - d`; if the loop exhausts the
segments the last coordinate is returned. -/
noncomputable def interpGo : (ℝ × ℝ) → List (ℝ × ℝ) → ℝ → (ℝ × ℝ)
  | c, [], _ => c
  | c, c2 :: rest, target =>
    let d := getDistance c c2
    if target ≤ d then interpolatePoints c c2 (target / d)
    else interpGo c2 rest (target - d)

/-- Total path length of `interpolate`: sum of consecutive segment
distances. -/
noncomputable def totalPathDistance (coordinates : List (ℝ × ℝ)) : ℝ :=
  (List.zipWith getDistance coordinates coordinates.tail).sum

/-- `interpolate` of the map-overlay module: progress ≤ 0 returns the first
coordinate, progress ≥ 1 the last, otherwise the point at fraction `progress`
of the cumulative arc length (out-of-range indexing of the empty JavaScript
array is modelled by the default pair `(0, 0)`). -/
noncomputable def interpolate (coordinates : List (ℝ × ℝ)) (progress : ℝ) :
    ℝ × ℝ :=
  if progress ≤ 0 then coordinates.headD (0, 0)
  else if 1 ≤ progress then (coordinates.getLast?).getD (0, 0)
  else
    match coordinates with
    | [] => (0, 0)
    | c :: rest => interpGo c rest (totalPathDistance (c :: rest) * progress)

/-- Action union of `RideBookingContext`'s reducer. -/
inductive RideBookingAction
  | SET_PICKUP_LOCATION (payload : Option MapLocation)
  | SET_DESTINATION_LOCATION (payload : Option MapLocation)
  | SET_ROUTE_DATA (distance : ℚ) (duration : ℚ) (routeData : Option RouteData)
  | SET_AVAILABLE_RIDE_TYPES (payload : List RideType)
  | SELECT_RIDE_TYPE (payload : Option RideType)
  | SET_PRICE_ESTIMATES (payload : List (String × ℚ))
  | SET_PAYMENT_METHODS (payload : List PaymentMethod)
  | SELECT_PAYMENT_METHOD (payload : Option PaymentMethod)
  | SET_CURRENT_RIDE (payload : Option Ride)
  | ADD_TO_RIDE_HISTORY (payload : Ride)
  | SET_LOADING_ROUTE (payload : Bool)
  | SET_LOADING_PRICES (payload : Bool)
  | SET_REQUESTING_RIDE (payload : Bool)
  | SET_ERROR (payload : Option String)
  | RESET_BOOKING

/-- `RideBookingState` from the feature's type declarations (the
`Record<string, number>` of price estimates is modelled as an association
list). -/
structure RideBookingState where
  pickupLocation : Option MapLocation
  destinationLocation : Option MapLocation
  routeDistance : Option ℚ
  routeDuration : Option ℚ
  routeData : Option RouteData
  availableRideTypes : List RideType
  selectedRideType : Option RideType
  priceEstimates : List (String × ℚ)
  priceFactors : PriceFactors
  paymentMethods : List PaymentMethod
  selectedPaymentMethod : Option PaymentMethod
  currentRide : Option Ride
  rideHistory : List Ride
  isLoadingRoute : Bool
  isLoadingPrices : Bool
  isRequestingRide : Bool
  error : Option String

/-- `initialPriceFactors` of `RideBookingContext`. -/
def initialPriceFactors : PriceFactors :=
  { basePrice := 2.5
    perKmRate := 1.25
    perMinuteRate := 0.35
    minimumFare := 5.0
    surgePricing := 1.0 }

/-- `initialState` of `RideBookingContext`. -/
def initialState : RideBookingState :=
  { pickupLocation := none
    destinationLocation := none
    routeDistance := none
    routeDuration := none
    routeData := none
    availableRideTypes := []
    selectedRideType := none
    priceEstimates := []
    priceFactors := initialPriceFactors
    paymentMethods := []
    selectedPaymentMethod := none
    currentRide := none
    rideHistory := []
    isLoadingRoute := false
    isLoadingPrices := false
    isRequestingRide := false
    error := none }

/-- `rideBookingReducer` of `RideBookingContext`. -/
def rideBookingReducer (state : RideBookingState) (action : RideBookingAction) :
    RideBookingState :=
  match action with
  | .SET_PICKUP_LOCATION payload => { state with pickupLocation := payload }
  | .SET_DESTINATION_LOCATION payload =>
    { state with destinationLocation := payload }
  | .SET_ROUTE_DATA distance duration routeData =>
    { state with
        routeDistance := some distance
        routeDuration := some duration
        routeData := routeData }
  | .SET_AVAILABLE_RIDE_TYPES payload =>
    { state with availableRideTypes := payload }
  | .SELECT_RIDE_TYPE payload => { state with selectedRideType := payload }
  | .SET_PRICE_ESTIMATES payload => { state with priceEstimates := payload }
  | .SET_PAYMENT_METHODS payload => { state with paymentMethods := payload }
  | .SELECT_PAYMENT_METHOD payload =>
    { state with selectedPaymentMethod := payload }
  | .SET_CURRENT_RIDE payload => { state with currentRide := payload }
  | .ADD_TO_RIDE_HISTORY payload =>
    { state with rideHistory := payload :: state.rideHistory }
  | .SET_LOADING_ROUTE payload => { state with isLoadingRoute := payload }
  | .SET_LOADING_PRICES payload => { state with isLoadingPrices := payload }
  | .SET_REQUESTING_RIDE payload => { state with isRequestingRide := payload }
  | .SET_ERROR payload => { state with error := payload }
  | .RESET_BOOKING =>
    { initialState with
        paymentMethods := state.paymentMethods
        rideHistory := state.rideHistory }

/-- `cancelRide` of `RideBookingContext` (the unused cancellation reason is
dropped; `now` stands for `new Date()`): reject when there is no current ride
or the id differs, otherwise mark the ride cancelled, clear `currentRide` and
prepend the cancelled ride to the history. -/
def cancelRide (state : RideBookingState) (rideId : String) (now : ℕ) :
    Bool × RideBookingState :=
  match state.currentRide with
  | none => (false, rideBookingReducer state (.SET_ERROR (some "Invalid ride ID")))
  | some ride =>
    if ride.id ≠ rideId then
      (false, rideBookingReducer state (.SET_ERROR (some "Invalid ride ID")))
    else
      let cancelledRide := { ride with status := .cancelled, updatedAt := now }
      (true,
        rideBookingReducer
          (rideBookingReducer state (.SET_CURRENT_RIDE none))
          (.ADD_TO_RIDE_HISTORY cancelledRide))

/-- Component-level state of `RideTrackingScreen`: the context state plus the
`driverLocation` React state and the three refs (`arrivalAtPickupRef`,
`arrivalAtDestinationRef`, `inProgressTimeoutRef`).  The pending boarding
timeout stores its absolute fire instant together with the ride captured by
the `setTimeout` closure. -/
structure TrackState where
  booking : RideBookingState
  driverLocation : Option MapLocation
  arrivalAtPickupRef : Bool
  arrivalAtDestinationRef : Bool
  inProgressTimeoutRef : Option (ℕ × Ride)

/-- `getTargetLocation` of the driver-simulation effect: pickup while the ride
is requested/accepted/arriving, destination while in progress, nothing
otherwise. -/
def getTargetLocation (ride : Ride) : Option MapLocation :=
  match ride.status with
  | .requested => some ride.pickup
  | .accepted => some ride.pickup
  | .arriving => some ride.pickup
  | .in_progress => some ride.destination
  | _ => none

/-- Body of the `setInterval` callback of `RideTrackingScreen` (driver speed
30 km/h, update interval 2 s): hold the driver at the pickup while the ride is
`arriving` after pickup arrival, otherwise move toward the current target,
snapping to the pickup (resp. destination) when the moved position ends up
within 0.05 km of it under the matching status and un-set arrival flag. -/
noncomputable def intervalStep (ride : Ride) (flagPickup flagDest : Bool)
    (prev : MapLocation) : MapLocation :=
  if flagPickup = true ∧ ride.status = .arriving then
    { latitude := ride.pickup.latitude, longitude := ride.pickup.longitude }
  else
    match getTargetLocation ride with
    | none => prev
    | some currentTarget =>
      let result := moveTowardTarget prev.latitude prev.longitude
        currentTarget.latitude currentTarget.longitude 30 2
      let distanceToPickup := calculateDistance result.latitude result.longitude
        ride.pickup.latitude ride.pickup.longitude
      if (ride.status = .requested ∨ ride.status = .accepted) ∧
          flagPickup = false ∧ distanceToPickup < 0.05 then
        { latitude := ride.pickup.latitude, longitude := ride.pickup.longitude }
      else if ride.status = .in_progress ∧ flagDest = false ∧
          calculateDistance result.latitude result.longitude
            ride.destination.latitude ride.destination.longitude < 0.05 then
        { latitude := ride.destination.latitude,
          longitude := ride.destination.longitude }
      else
        { latitude := result.latitude, longitude := result.longitude }

/-- Body of the arrival-detection effect of `RideTrackingScreen`.  When the
driver is within 0.05 km of the pickup with status requested/accepted and the
pickup flag un-set: set the flag, dispatch the ride with status `arriving` and
stamped `updatedAt`, and schedule the boarding timeout 3000 ms ahead (its
closure captures the arriving ride).  When within 0.05 km of the destination
with status `in_progress` and the destination flag un-set: set the flag and
dispatch the ride completed.  The boolean reports whether a dispatch
happened. -/
noncomputable def arrivalEffect (now : ℕ) (s : TrackState) : TrackState × Bool :=
  match s.booking.currentRide, s.driverLocation with
  | some ride, some loc =>
    if s.arrivalAtPickupRef = false ∧
        (ride.status = .requested ∨ ride.status = .accepted) ∧
        calculateDistance loc.latitude loc.longitude
          ride.pickup.latitude ride.pickup.longitude < 0.05 then
      let updatedRide := { ride with status := .arriving, updatedAt := now }
      ({ s with
          booking := rideBookingReducer s.booking
            (.SET_CURRENT_RIDE (some updatedRide))
          arrivalAtPickupRef := true
          inProgressTimeoutRef := some (now + 3000, updatedRide) }, true)
    else if s.arrivalAtDestinationRef = false ∧ ride.status = .in_progress ∧
        calculateDistance loc.latitude loc.longitude
          ride.destination.latitude ride.destination.longitude < 0.05 then
      let completedRide := { ride with status := .completed, updatedAt := now }
      ({ s with
          booking := rideBookingReducer s.booking
            (.SET_CURRENT_RIDE (some completedRide))
          arrivalAtDestinationRef := true }, true)
    else (s, false)
  | _, _ => (s, false)

/-- One 2-second position tick of `RideTrackingScreen`, together with the
React commits it triggers while the system settles.  The interval exists only
when a ride, a driver location and a movement target are all present.  The
`setDriverLocation` with a fresh location object re-renders the screen, at
which point the interval effect's cleanup runs and clears
`inProgressTimeoutRef`; then the arrival-detection effect body runs against
the new location.  If that body dispatches a ride update, the resulting commit
runs the interval effect's cleanup once more (clearing any timeout the body
just scheduled); the re-run arrival body is a no-op because the dispatched
status is `arriving` or `completed`.  The flag-reset effect does not run since
the ride id is unchanged. -/
noncomputable def applyTick (now : ℕ) (s : TrackState) : TrackState :=
  match s.booking.currentRide, s.driverLocation with
  | some ride, some prev =>
    match getTargetLocation ride with
    | none => s
    | some _ =>
      let newLoc := intervalStep ride s.arrivalAtPickupRef
        s.arrivalAtDestinationRef prev
      let s1 : TrackState :=
        { s with driverLocation := some newLoc, inProgressTimeoutRef := none }
      let r := arrivalEffect now s1
      if r.2 then { r.1 with inProgressTimeoutRef := none } else r.1
  | _, _ => s

/-- Firing of the pending boarding timeout: dispatch the captured ride with
status `in_progress` and a fresh `updatedAt`, null the ref, then run the
commit that follows the dispatch (interval cleanup on an already-null ref and
the arrival-detection body, which may immediately complete the ride when the
pickup lies within 0.05 km of the destination).  Nothing happens when no
timeout is pending. -/
noncomputable def applyTimerFire (now : ℕ) (s : TrackState) : TrackState :=
  match s.inProgressTimeoutRef with
  | none => s
  | some (_, updatedRide) =>
    let inProgressRide := { updatedRide with status := .in_progress, updatedAt := now }
    let s1 : TrackState :=
      { s with
          booking := rideBookingReducer s.booking
            (.SET_CURRENT_RIDE (some inProgressRide))
          inProgressTimeoutRef := none }
    let r := arrivalEffect now s1
    if r.2 then { r.1 with inProgressTimeoutRef := none } else r.1

/-- The ride id (if any) held by an optional ride, as compared by the
flag-reset effect's dependency `currentRide?.id`. -/
def rideId? (o : Option Ride) : Option String := o.map (·.id)

/-- Dispatch of `SET_CURRENT_RIDE` (ride creation or replacement) together
with the commits it triggers: the interval effect's cleanup clears the
boarding timeout; the arrival-detection body runs with the still-old flags and
may immediately dispatch; the flag-reset effect then resets both arrival flags
and clears the timeout exactly when `currentRide?.id` changed; a dispatch from
the arrival body triggers one more interval cleanup. -/
noncomputable def applySetCurrentRide (now : ℕ) (payload : Option Ride)
    (s : TrackState) : TrackState :=
  let s1 : TrackState :=
    { s with
        booking := rideBookingReducer s.booking (.SET_CURRENT_RIDE payload)
        inProgressTimeoutRef := none }
  let r := arrivalEffect now s1
  let s3 : TrackState :=
    if rideId? payload ≠ rideId? s.booking.currentRide then
      { r.1 with
          arrivalAtPickupRef := false
          arrivalAtDestinationRef := false
          inProgressTimeoutRef := none }
    else r.1
  if r.2 then { s3 with inProgressTimeoutRef := none } else s3

/-- User-triggered cancellation as seen by `RideTrackingScreen`: the context's
`cancelRide` runs; on success `currentRide` becomes `none`, so the id-change
commit clears both arrival flags and the pending boarding timeout (the
arrival body is a no-op without a current ride); on rejection only the error
field changed, so no effect re-runs. -/
noncomputable def applyCancel (now : ℕ) (rideId : String) (s : TrackState) :
    TrackState × Bool :=
  let r := cancelRide s.booking rideId now
  if r.1 then
    ({ s with
        booking := r.2
        inProgressTimeoutRef := none
        arrivalAtPickupRef := false
        arrivalAtDestinationRef := false }, true)
  else ({ s with booking := r.2 }, false)

/-- Haversine value of the central angle between two points given in radians:
the quantity `a` computed inside the distance helpers. -/
noncomputable def hav (phi1 lam1 phi2 lam2 : ℝ) : ℝ :=
  Real.sin ((phi2 - phi1) / 2) * Real.sin ((phi2 - phi1) / 2) +
    Real.cos phi1 * Real.cos phi2 *
      (Real.sin ((lam2 - lam1) / 2) * Real.sin ((lam2 - lam1) / 2))

/-- Cosine of the central angle between two points given in radians (the dot
product of the corresponding unit vectors). -/
noncomputable def innerAng (phi1 lam1 phi2 lam2 : ℝ) : ℝ :=
  Real.sin phi1 * Real.sin phi2 +
    Real.cos phi1 * Real.cos phi2 * Real.cos (lam2 - lam1)

/-- Central angle between two points given in radians, recovered from the
haversine value. -/
noncomputable def centralAngle (phi1 lam1 phi2 lam2 : ℝ) : ℝ :=
  2 * Real.arcsin (Real.sqrt (hav phi1 lam1 phi2 lam2))

/-- First `atan2` argument of the bearing computation (east component of the
target direction), in radians. -/
noncomputable def bearingY (phi1 lam1 phi2 lam2 : ℝ) : ℝ :=
  Real.sin (lam2 - lam1) * Real.cos phi2

/-- Second `atan2` argument of the bearing computation (north component of the
target direction), in radians. -/
noncomputable def bearingX (phi1 lam1 phi2 lam2 : ℝ) : ℝ :=
  Real.cos phi1 * Real.sin phi2 -
    Real.sin phi1 * Real.cos phi2 * Real.cos (lam2 - lam1)

/-- Bearing angle (radians) between two points given in radians:
`atan2 bearingY bearingX`. -/
noncomputable def bearingAng (phi1 lam1 phi2 lam2 : ℝ) : ℝ :=
  arctan2 (bearingY phi1 lam1 phi2 lam2) (bearingX phi1 lam1 phi2 lam2)

/-- Sine of the latitude reached by the forward spherical step of angular
distance `delta` along the initial bearing, all in radians. -/
noncomputable def stepS (phi1 lam1 phi2 lam2 delta : ℝ) : ℝ :=
  Real.sin phi1 * Real.cos delta +
    Real.cos phi1 * Real.sin delta * Real.cos (bearingAng phi1 lam1 phi2 lam2)

/-- Latitude (radians) reached by the forward spherical step. -/
noncomputable def stepPhi (phi1 lam1 phi2 lam2 delta : ℝ) : ℝ :=
  Real.arcsin (stepS phi1 lam1 phi2 lam2 delta)

/-- Longitude (radians) reached by the forward spherical step. -/
noncomputable def stepLam (phi1 lam1 phi2 lam2 delta : ℝ) : ℝ :=
  lam1 + arctan2
    (Real.sin (bearingAng phi1 lam1 phi2 lam2) * Real.sin delta * Real.cos phi1)
    (Real.cos delta -
      Real.sin phi1 * Real.sin (stepPhi phi1 lam1 phi2 lam2 delta))

/-- The list of consecutive segment lengths of a path, as summed by
`interpolate`. -/
noncomputable def segDistances (coordinates : List (ℝ × ℝ)) : List ℝ :=
  List.zipWith getDistance coordinates coordinates.tail

/-- Sample ride type shared by concrete instances. -/
def sampleRideType : RideType :=
  { id := "economy", name := "Economy", description := "Affordable ride",
    capacity := 4, icon := "car", priceMultiplier := 1 }

/-- Sample payment method shared by concrete instances. -/
def samplePaymentMethod : PaymentMethod :=
  { id := "cash", type := "cash", label := "Cash", isDefault := true }

/-- Sample location at the origin shared by concrete instances. -/
def sampleLoc : MapLocation := { latitude := 0, longitude := 0 }

/-- Sample ride at the origin with a chosen status. -/
def sampleRide (st : RideStatus) : Ride :=
  { id := "ride-1", status := st, pickup := sampleLoc, destination := sampleLoc,
    fare := 10, createdAt := 0, updatedAt := 0, rideType := sampleRideType,
    paymentMethod := samplePaymentMethod }

/-- Booking state holding a current ride with a chosen status. -/
def stateWithRide (st : RideStatus) : RideBookingState :=
  { initialState with currentRide := some (sampleRide st) }

/-- C2: `calculatePrice` computes
`round₂ (max (((base + d·perKm + t·perMin) · multiplier) · surge) minimumFare)`
and in particular returns 18.20 on the documented scenario (distance 5 km,
duration 15 min, multiplier 1.3, base 2.5, perKm 1.25, perMin 0.35,
minimum 5.0, surge 1.0). -/
theorem calculatePrice_formula_and_scenario :
    (∀ (distance duration : ℚ) (rideType : RideType) (factors : PriceFactors),
      calculatePrice distance duration rideType factors =
        (jsRound (max ((factors.basePrice + distance * factors.perKmRate +
            duration * factors.perMinuteRate) * rideType.priceMultiplier *
            factors.surgePricing) factors.minimumFare * 100) : ℚ) / 100) ∧
    calculatePrice 5 15
      { id := "comfort", name := "Comfort", description := "", capacity := 4,
        icon := "car", priceMultiplier := 1.3 }
      { basePrice := 2.5, perKmRate := 1.25, perMinuteRate := 0.35,
        minimumFare := 5.0, surgePricing := 1.0 } = 18.20 := by
  constructor
  · intro distance duration rideType factors
    rfl
  · norm_num [calculatePrice, jsRound]

/-- C1 counterexample: with `minimumFare = -0.496` (not a non-negative whole
number of cents) and a negative base price, `calculatePrice` returns `-0.5`,
which is below the minimum fare and negative. -/
theorem calculatePrice_below_min_and_negative :
    calculatePrice 0 0
      { id := "x", name := "x", description := "", capacity := 4, icon := "",
        priceMultiplier := 1 }
      { basePrice := -10, perKmRate := 0, perMinuteRate := 0,
        minimumFare := -(124/250), surgePricing := 1 } < -(124/250) ∧
    calculatePrice 0 0
      { id := "x", name := "x", description := "", capacity := 4, icon := "",
        priceMultiplier := 1 }
      { basePrice := -10, perKmRate := 0, perMinuteRate := 0,
        minimumFare := -(124/250), surgePricing := 1 } < 0 := by
  norm_num [calculatePrice, jsRound]

/-- If `q` is a whole number of cents and `q ≤ x`, then `q` is at most the
cent-rounding of `x`. -/
theorem le_jsRound_div (x q : ℚ) (m : ℤ) (hq : q * 100 = m) (h : q ≤ x) :
    q ≤ (jsRound (x * 100) : ℚ) / 100 := by
  rw [le_div_iff₀ (show (0 : ℚ) < 100 by norm_num)]
  rw [hq]
  have hx : (m : ℚ) ≤ x * 100 + 1 / 2 := by nlinarith [hq]
  exact_mod_cast Int.le_floor.mpr hx

/-- C1 (amended): whenever `minimumFare` is non-negative and is a whole number
of cents, `calculatePrice` returns a value that is at least `minimumFare` and
non-negative; and it is a pure deterministic function of its four inputs. -/
theorem calculatePrice_min_fare_floor (distance duration : ℚ)
    (rideType : RideType) (factors : PriceFactors)
    (hmin : 0 ≤ factors.minimumFare)
    (hcents : ∃ m : ℤ, factors.minimumFare * 100 = m) :
    factors.minimumFare ≤ calculatePrice distance duration rideType factors ∧
    0 ≤ calculatePrice distance duration rideType factors ∧
    ∀ d2 t2 r2 f2, d2 = distance → t2 = duration → r2 = rideType →
      f2 = factors →
      calculatePrice d2 t2 r2 f2 = calculatePrice distance duration rideType factors := by
  obtain ⟨m, hm⟩ := hcents
  have hfloor : factors.minimumFare ≤ calculatePrice distance duration rideType factors :=
    le_jsRound_div _ _ m hm (le_max_right _ _)
  refine ⟨hfloor, le_trans hmin hfloor, ?_⟩
  intro d2 t2 r2 f2 h1 h2 h3 h4
  rw [h1, h2, h3, h4]

/-- Witness for C1 at distance 2, duration 3 and the initial price factors. -/
theorem calculatePrice_min_fare_floor_witness :
    (0 ≤ initialPriceFactors.minimumFare ∧
      ∃ m : ℤ, initialPriceFactors.minimumFare * 100 = m) ∧
    (initialPriceFactors.minimumFare ≤
        calculatePrice 2 3 sampleRideType initialPriceFactors ∧
      0 ≤ calculatePrice 2 3 sampleRideType initialPriceFactors ∧
      ∀ d2 t2 r2 f2, d2 = 2 → t2 = 3 → r2 = sampleRideType →
        f2 = initialPriceFactors →
        calculatePrice d2 t2 r2 f2 =
          calculatePrice 2 3 sampleRideType initialPriceFactors) :=
  ⟨⟨by norm_num [initialPriceFactors], ⟨500, by norm_num [initialPriceFactors]⟩⟩,
    calculatePrice_min_fare_floor 2 3 sampleRideType initialPriceFactors
      (by norm_num [initialPriceFactors])
      ⟨500, by norm_num [initialPriceFactors]⟩⟩

/-- C10: `RESET_BOOKING` returns the initial state with `paymentMethods` and
`rideHistory` carried over from the pre-reset state, and every other reducer
action updates exactly the fields named in its case, leaving the rest of the
state unchanged. -/
theorem rideBookingReducer_frame :
    (∀ s, rideBookingReducer s .RESET_BOOKING =
      { initialState with
          paymentMethods := s.paymentMethods
          rideHistory := s.rideHistory }) ∧
    (∀ s p, rideBookingReducer s (.SET_PICKUP_LOCATION p) =
      { s with pickupLocation := p }) ∧
    (∀ s p, rideBookingReducer s (.SET_DESTINATION_LOCATION p) =
      { s with destinationLocation := p }) ∧
    (∀ s d t rd, rideBookingReducer s (.SET_ROUTE_DATA d t rd) =
      { s with routeDistance := some d, routeDuration := some t,
               routeData := rd }) ∧
    (∀ s p, rideBookingReducer s (.SET_AVAILABLE_RIDE_TYPES p) =
      { s with availableRideTypes := p }) ∧
    (∀ s p, rideBookingReducer s (.SELECT_RIDE_TYPE p) =
      { s with selectedRideType := p }) ∧
    (∀ s p, rideBookingReducer s (.SET_PRICE_ESTIMATES p) =
      { s with priceEstimates := p }) ∧
    (∀ s p, rideBookingReducer s (.SET_PAYMENT_METHODS p) =
      { s with paymentMethods := p }) ∧
    (∀ s p, rideBookingReducer s (.SELECT_PAYMENT_METHOD p) =
      { s with selectedPaymentMethod := p }) ∧
    (∀ s p, rideBookingReducer s (.SET_CURRENT_RIDE p) =
      { s with currentRide := p }) ∧
    (∀ s p, rideBookingReducer s (.ADD_TO_RIDE_HISTORY p) =
      { s with rideHistory := p :: s.rideHistory }) ∧
    (∀ s p, rideBookingReducer s (.SET_LOADING_ROUTE p) =
      { s with isLoadingRoute := p }) ∧
    (∀ s p, rideBookingReducer s (.SET_LOADING_PRICES p) =
      { s with isLoadingPrices := p }) ∧
    (∀ s p, rideBookingReducer s (.SET_REQUESTING_RIDE p) =
      { s with isRequestingRide := p }) ∧
    (∀ s p, rideBookingReducer s (.SET_ERROR p) =
      { s with error := p }) :=
  ⟨fun _ => rfl, fun _ _ => rfl, fun _ _ => rfl, fun _ _ _ _ => rfl,
    fun _ _ => rfl, fun _ _ => rfl, fun _ _ => rfl, fun _ _ => rfl,
    fun _ _ => rfl, fun _ _ => rfl, fun _ _ => rfl, fun _ _ => rfl,
    fun _ _ => rfl, fun _ _ => rfl, fun _ _ => rfl⟩

/-- C3 counterexample: cancelling a ride that is already `completed` but still
the current ride is accepted, not rejected: `cancelRide` returns `true`,
clears `currentRide` and moves the (re-cancelled) ride into the history. -/
theorem cancelRide_completed_accepted :
    (cancelRide (stateWithRide .completed) "ride-1" 99).1 = true ∧
    (cancelRide (stateWithRide .completed) "ride-1" 99).2.currentRide = none ∧
    (cancelRide (stateWithRide .completed) "ride-1" 99).2.rideHistory =
      [{ sampleRide .completed with status := .cancelled, updatedAt := 99 }] := by
  refine ⟨?_, ?_, ?_⟩ <;>
    simp [cancelRide, stateWithRide, sampleRide, rideBookingReducer, initialState]

/-- C3 (amended): `cancelRide` rejects exactly the calls with no current ride
or a non-matching ride id — returning `false` and changing only the error
message — while a call whose id matches the current ride succeeds regardless
of the ride's status (even a terminal one), returning `true`, clearing
`currentRide` and prepending the cancelled ride to the history. -/
theorem cancelRide_reject_iff_mismatch (s : RideBookingState) (rideId : String)
    (now : ℕ) :
    (rideId? s.currentRide ≠ some rideId →
      cancelRide s rideId now =
        (false, { s with error := some "Invalid ride ID" })) ∧
    (∀ ride, s.currentRide = some ride → ride.id = rideId →
      cancelRide s rideId now =
        (true, { s with
            currentRide := none
            rideHistory :=
              { ride with status := .cancelled, updatedAt := now } ::
                s.rideHistory })) := by
  constructor
  · intro hmm
    match h : s.currentRide with
    | none => simp [cancelRide, h, rideBookingReducer]
    | some ride =>
      rw [h] at hmm
      simp only [rideId?, Option.map_some', ne_eq, Option.some.injEq] at hmm
      simp [cancelRide, h, hmm, rideBookingReducer]
  · intro ride h hid
    simp [cancelRide, h, hid, rideBookingReducer]

/-- Witness for C3 at the initial state (no current ride) with id `"x"`. -/
theorem cancelRide_reject_iff_mismatch_witness :
    (rideId? initialState.currentRide ≠ some "x") ∧
    cancelRide initialState "x" 0 =
      (false, { initialState with error := some "Invalid ride ID" }) :=
  ⟨by simp [initialState, rideId?],
    (cancelRide_reject_iff_mismatch initialState "x" 0).1
      (by simp [initialState, rideId?])⟩

/-- Events interleaving the two scheduled callbacks of the tracking screen:
the 2-second position tick and the boarding-timeout firing. -/
inductive SimEvent
  | tick (now : ℕ)
  | timerFire (now : ℕ)

/-- Run of the tracking screen over a sequence of scheduled-callback
events. -/
noncomputable def runEvents : List SimEvent → TrackState → TrackState
  | [], s => s
  | .tick t :: evs, s => runEvents evs (applyTick t s)
  | .timerFire t :: evs, s => runEvents evs (applyTimerFire t s)

/-- Tracking-screen state holding a current ride with a chosen status, the
driver at the origin, clear flags and no pending timeout. -/
noncomputable def trackStateWithRide (st : RideStatus) : TrackState :=
  { booking := stateWithRide st
    driverLocation := some sampleLoc
    arrivalAtPickupRef := false
    arrivalAtDestinationRef := false
    inProgressTimeoutRef := none }

theorem arctan2_sin_cos {t : ℝ} (h1 : -π < t) (h2 : t ≤ π) :
    arctan2 (Real.sin t) (Real.cos t) = t := by
  unfold arctan2
  have h : (⟨Real.cos t, Real.sin t⟩ : ℂ) =
      Complex.cos t + Complex.sin t * Complex.I := by
    apply Complex.ext <;>
      simp [Complex.cos_ofReal_re, Complex.sin_ofReal_re]
  rw [h, Complex.arg_cos_add_sin_mul_I ⟨h1, h2⟩]

theorem arctan2_zero_one : arctan2 0 1 = 0 := by
  unfold arctan2
  have h : (⟨1, 0⟩ : ℂ) = 1 := by apply Complex.ext <;> simp
  rw [h, Complex.arg_one]

theorem arctan2_zero_zero : arctan2 0 0 = 0 := by
  unfold arctan2
  have h : (⟨0, 0⟩ : ℂ) = 0 := by apply Complex.ext <;> simp
  rw [h, Complex.arg_zero]

theorem sin_arctan2 (y x : ℝ) :
    Real.sin (arctan2 y x) = y / Real.sqrt (x * x + y * y) := by
  unfold arctan2
  rw [Complex.sin_arg]
  simp [Complex.abs_apply, Complex.normSq_mk]

theorem cos_arctan2 (y x : ℝ) (h : ¬(x = 0 ∧ y = 0)) :
    Real.cos (arctan2 y x) = x / Real.sqrt (x * x + y * y) := by
  unfold arctan2
  rw [Complex.cos_arg]
  · simp [Complex.abs_apply, Complex.normSq_mk]
  · intro hz
    rw [Complex.ext_iff] at hz
    simp at hz
    exact h ⟨hz.1, hz.2⟩

theorem sin_half_sq (u : ℝ) :
    Real.sin (u / 2) * Real.sin (u / 2) = (1 - Real.cos u) / 2 := by
  have h1 : Real.cos u = 2 * Real.cos (u / 2) ^ 2 - 1 := by
    have h := Real.cos_two_mul (u / 2)
    rwa [show 2 * (u / 2) = u by ring] at h
  have h2 := Real.sin_sq_add_cos_sq (u / 2)
  nlinarith [h2]

theorem hav_eq_innerAng (phi1 lam1 phi2 lam2 : ℝ) :
    hav phi1 lam1 phi2 lam2 = (1 - innerAng phi1 lam1 phi2 lam2) / 2 := by
  unfold hav innerAng
  rw [sin_half_sq, sin_half_sq, Real.cos_sub]
  ring

theorem bearing_sq_identity (phi1 lam1 phi2 lam2 : ℝ) :
    bearingX phi1 lam1 phi2 lam2 * bearingX phi1 lam1 phi2 lam2 +
      bearingY phi1 lam1 phi2 lam2 * bearingY phi1 lam1 phi2 lam2 +
      innerAng phi1 lam1 phi2 lam2 * innerAng phi1 lam1 phi2 lam2 = 1 := by
  unfold bearingX bearingY innerAng
  linear_combination
    (Real.sin phi2 ^ 2 + Real.cos phi2 ^ 2 * Real.cos (lam2 - lam1) ^ 2) *
      Real.sin_sq_add_cos_sq phi1 +
    Real.cos phi2 ^ 2 * Real.sin_sq_add_cos_sq (lam2 - lam1) +
    Real.sin_sq_add_cos_sq phi2

theorem innerAng_bounds (phi1 lam1 phi2 lam2 : ℝ) :
    -1 ≤ innerAng phi1 lam1 phi2 lam2 ∧ innerAng phi1 lam1 phi2 lam2 ≤ 1 := by
  have h := bearing_sq_identity phi1 lam1 phi2 lam2
  constructor <;>
    nlinarith [mul_self_nonneg (bearingX phi1 lam1 phi2 lam2),
      mul_self_nonneg (bearingY phi1 lam1 phi2 lam2),
      mul_self_nonneg (innerAng phi1 lam1 phi2 lam2 - 1),
      mul_self_nonneg (innerAng phi1 lam1 phi2 lam2 + 1)]

theorem hav_nonneg (phi1 lam1 phi2 lam2 : ℝ) : 0 ≤ hav phi1 lam1 phi2 lam2 := by
  rw [hav_eq_innerAng]
  linarith [(innerAng_bounds phi1 lam1 phi2 lam2).2]

theorem hav_le_one (phi1 lam1 phi2 lam2 : ℝ) : hav phi1 lam1 phi2 lam2 ≤ 1 := by
  rw [hav_eq_innerAng]
  linarith [(innerAng_bounds phi1 lam1 phi2 lam2).1]

theorem arctan2_sqrt_eq_arcsin {a : ℝ} (h0 : 0 ≤ a) (h1 : a ≤ 1) :
    arctan2 (Real.sqrt a) (Real.sqrt (1 - a)) = Real.arcsin (Real.sqrt a) := by
  have hs1 : Real.sqrt a ≤ 1 := Real.sqrt_le_one.mpr h1
  have hs0 : -1 ≤ Real.sqrt a := le_trans (by norm_num) (Real.sqrt_nonneg a)
  have hsin : Real.sin (Real.arcsin (Real.sqrt a)) = Real.sqrt a :=
    Real.sin_arcsin hs0 hs1
  have hcos : Real.cos (Real.arcsin (Real.sqrt a)) = Real.sqrt (1 - a) := by
    rw [Real.cos_arcsin]
    congr 1
    rw [Real.sq_sqrt h0]
  have ht0 : 0 ≤ Real.arcsin (Real.sqrt a) :=
    Real.arcsin_nonneg.mpr (Real.sqrt_nonneg a)
  have ht2 : Real.arcsin (Real.sqrt a) ≤ π / 2 := Real.arcsin_le_pi_div_two _
  calc arctan2 (Real.sqrt a) (Real.sqrt (1 - a)) =
      arctan2 (Real.sin (Real.arcsin (Real.sqrt a)))
        (Real.cos (Real.arcsin (Real.sqrt a))) := by rw [hsin, hcos]
    _ = Real.arcsin (Real.sqrt a) := by
        apply arctan2_sin_cos
        · linarith [Real.pi_pos]
        · linarith [Real.pi_pos]

theorem centralAngle_nonneg (phi1 lam1 phi2 lam2 : ℝ) :
    0 ≤ centralAngle phi1 lam1 phi2 lam2 := by
  unfold centralAngle
  have := Real.arcsin_nonneg.mpr (Real.sqrt_nonneg (hav phi1 lam1 phi2 lam2))
  linarith

theorem centralAngle_le_pi (phi1 lam1 phi2 lam2 : ℝ) :
    centralAngle phi1 lam1 phi2 lam2 ≤ π := by
  unfold centralAngle
  have := Real.arcsin_le_pi_div_two (Real.sqrt (hav phi1 lam1 phi2 lam2))
  linarith

theorem cos_centralAngle (phi1 lam1 phi2 lam2 : ℝ) :
    Real.cos (centralAngle phi1 lam1 phi2 lam2) =
      innerAng phi1 lam1 phi2 lam2 := by
  unfold centralAngle
  have h0 := hav_nonneg phi1 lam1 phi2 lam2
  have h1 := hav_le_one phi1 lam1 phi2 lam2
  have hs1 : Real.sqrt (hav phi1 lam1 phi2 lam2) ≤ 1 := Real.sqrt_le_one.mpr h1
  have hs0 : -1 ≤ Real.sqrt (hav phi1 lam1 phi2 lam2) :=
    le_trans (by norm_num) (Real.sqrt_nonneg _)
  have hsin := Real.sin_arcsin hs0 hs1
  have hsin2 : Real.sin (Real.arcsin (Real.sqrt (hav phi1 lam1 phi2 lam2))) ^ 2 =
      hav phi1 lam1 phi2 lam2 := by
    rw [hsin]
    exact Real.sq_sqrt h0
  have hcos2 := Real.sin_sq_add_cos_sq (Real.arcsin (Real.sqrt (hav phi1 lam1 phi2 lam2)))
  have hcossq : Real.cos (Real.arcsin (Real.sqrt (hav phi1 lam1 phi2 lam2))) ^ 2 =
      1 - hav phi1 lam1 phi2 lam2 := by linarith
  rw [Real.cos_two_mul, hcossq, hav_eq_innerAng]
  ring

theorem sin_centralAngle (phi1 lam1 phi2 lam2 : ℝ) :
    Real.sin (centralAngle phi1 lam1 phi2 lam2) =
      Real.sqrt (1 - innerAng phi1 lam1 phi2 lam2 *
        innerAng phi1 lam1 phi2 lam2) := by
  have h0 := centralAngle_nonneg phi1 lam1 phi2 lam2
  have h1 := centralAngle_le_pi phi1 lam1 phi2 lam2
  have hs : 0 ≤ Real.sin (centralAngle phi1 lam1 phi2 lam2) :=
    Real.sin_nonneg_of_nonneg_of_le_pi h0 h1
  have hc := cos_centralAngle phi1 lam1 phi2 lam2
  have hid := Real.sin_sq_add_cos_sq (centralAngle phi1 lam1 phi2 lam2)
  rw [show Real.sin (centralAngle phi1 lam1 phi2 lam2) =
      Real.sqrt (Real.sin (centralAngle phi1 lam1 phi2 lam2) ^ 2) from
    (Real.sqrt_sq hs).symm]
  congr 1
  rw [← hc]
  linear_combination hid

theorem calculateDistance_arctan (lat1 lon1 lat2 lon2 : ℝ) :
    calculateDistance lat1 lon1 lat2 lon2 =
      6371 * (2 * arctan2
        (Real.sqrt (hav (lat1 * π / 180) (lon1 * π / 180)
          (lat2 * π / 180) (lon2 * π / 180)))
        (Real.sqrt (1 - hav (lat1 * π / 180) (lon1 * π / 180)
          (lat2 * π / 180) (lon2 * π / 180)))) := by
  have ha : Real.sin ((lat2 - lat1) * π / 180 / 2) *
        Real.sin ((lat2 - lat1) * π / 180 / 2) +
      Real.cos (lat1 * π / 180) * Real.cos (lat2 * π / 180) *
        Real.sin ((lon2 - lon1) * π / 180 / 2) *
        Real.sin ((lon2 - lon1) * π / 180 / 2) =
      hav (lat1 * π / 180) (lon1 * π / 180) (lat2 * π / 180) (lon2 * π / 180) := by
    unfold hav
    rw [show (lat2 - lat1) * π / 180 / 2 =
          (lat2 * π / 180 - lat1 * π / 180) / 2 by ring,
        show (lon2 - lon1) * π / 180 / 2 =
          (lon2 * π / 180 - lon1 * π / 180) / 2 by ring]
    ring
  show 6371 * (2 * arctan2
      (Real.sqrt (Real.sin ((lat2 - lat1) * π / 180 / 2) *
          Real.sin ((lat2 - lat1) * π / 180 / 2) +
        Real.cos (lat1 * π / 180) * Real.cos (lat2 * π / 180) *
          Real.sin ((lon2 - lon1) * π / 180 / 2) *
          Real.sin ((lon2 - lon1) * π / 180 / 2)))
      (Real.sqrt (1 - (Real.sin ((lat2 - lat1) * π / 180 / 2) *
          Real.sin ((lat2 - lat1) * π / 180 / 2) +
        Real.cos (lat1 * π / 180) * Real.cos (lat2 * π / 180) *
          Real.sin ((lon2 - lon1) * π / 180 / 2) *
          Real.sin ((lon2 - lon1) * π / 180 / 2))))) = _
  rw [ha]

theorem calculateDistance_eq (lat1 lon1 lat2 lon2 : ℝ) :
    calculateDistance lat1 lon1 lat2 lon2 =
      6371 * centralAngle (lat1 * π / 180) (lon1 * π / 180)
        (lat2 * π / 180) (lon2 * π / 180) := by
  rw [calculateDistance_arctan,
    arctan2_sqrt_eq_arcsin (hav_nonneg _ _ _ _) (hav_le_one _ _ _ _)]
  rfl

theorem hav_self (phi lam : ℝ) : hav phi lam phi lam = 0 := by
  unfold hav
  simp

theorem hav_comm (phi1 lam1 phi2 lam2 : ℝ) :
    hav phi1 lam1 phi2 lam2 = hav phi2 lam2 phi1 lam1 := by
  unfold hav
  rw [show (phi1 - phi2) / 2 = -((phi2 - phi1) / 2) by ring,
      show (lam1 - lam2) / 2 = -((lam2 - lam1) / 2) by ring,
      Real.sin_neg, Real.sin_neg]
  ring

theorem centralAngle_self (phi lam : ℝ) : centralAngle phi lam phi lam = 0 := by
  unfold centralAngle
  rw [hav_self]
  simp

theorem centralAngle_comm (phi1 lam1 phi2 lam2 : ℝ) :
    centralAngle phi1 lam1 phi2 lam2 = centralAngle phi2 lam2 phi1 lam1 := by
  unfold centralAngle
  rw [hav_comm]

theorem calculateDistance_self (lat lon : ℝ) :
    calculateDistance lat lon lat lon = 0 := by
  rw [calculateDistance_eq, centralAngle_self, mul_zero]

theorem calculateDistance_comm (lat1 lon1 lat2 lon2 : ℝ) :
    calculateDistance lat1 lon1 lat2 lon2 =
      calculateDistance lat2 lon2 lat1 lon1 := by
  rw [calculateDistance_eq, calculateDistance_eq, centralAngle_comm]

theorem calculateDistanceLoc_eq (loc1 loc2 : MapLocation) :
    calculateDistanceLoc loc1 loc2 =
      calculateDistance loc1.latitude loc1.longitude
        loc2.latitude loc2.longitude := by
  unfold calculateDistanceLoc calculateDistance
  rw [show (loc2.latitude - loc1.latitude) * (π / 180) =
        (loc2.latitude - loc1.latitude) * π / 180 by ring,
      show (loc2.longitude - loc1.longitude) * (π / 180) =
        (loc2.longitude - loc1.longitude) * π / 180 by ring,
      show loc1.latitude * (π / 180) = loc1.latitude * π / 180 by ring,
      show loc2.latitude * (π / 180) = loc2.latitude * π / 180 by ring]

/-- C8: both haversine helpers return 0 on identical points and are
symmetric in their two coordinate arguments. -/
theorem calculateDistance_self_and_symm :
    (∀ lat lon : ℝ, calculateDistance lat lon lat lon = 0) ∧
    (∀ lat1 lon1 lat2 lon2 : ℝ,
      calculateDistance lat1 lon1 lat2 lon2 =
        calculateDistance lat2 lon2 lat1 lon1) ∧
    (∀ a : MapLocation, calculateDistanceLoc a a = 0) ∧
    (∀ a b : MapLocation, calculateDistanceLoc a b = calculateDistanceLoc b a) :=
  ⟨calculateDistance_self, calculateDistance_comm,
    fun a => by rw [calculateDistanceLoc_eq, calculateDistance_self],
    fun a b => by
      rw [calculateDistanceLoc_eq, calculateDistanceLoc_eq,
        calculateDistance_comm]⟩

theorem arctan2_smul (y x k : ℝ) (hk : 0 < k) :
    arctan2 (k * y) (k * x) = arctan2 y x := by
  unfold arctan2
  have h : (⟨k * x, k * y⟩ : ℂ) = (k : ℝ) * ⟨x, y⟩ := by
    apply Complex.ext <;> simp
  rw [h, Complex.arg_real_mul _ hk]

theorem arctan2_dot (y x : ℝ) :
    Real.cos (arctan2 y x) * x + Real.sin (arctan2 y x) * y =
      Real.sqrt (x * x + y * y) := by
  by_cases h : x = 0 ∧ y = 0
  · rw [h.1, h.2]
    simp
  · have hpos : 0 < x * x + y * y := by
      rcases not_and_or.mp h with hx | hy
      · have h1 : 0 < x * x := mul_self_pos.mpr hx
        nlinarith [mul_self_nonneg y]
      · have h1 : 0 < y * y := mul_self_pos.mpr hy
        nlinarith [mul_self_nonneg x]
    have hr : 0 < Real.sqrt (x * x + y * y) := Real.sqrt_pos.mpr hpos
    rw [cos_arctan2 y x h, sin_arctan2 y x]
    field_simp

theorem stepS_bounds (phi1 lam1 phi2 lam2 delta : ℝ) :
    -1 ≤ stepS phi1 lam1 phi2 lam2 delta ∧
      stepS phi1 lam1 phi2 lam2 delta ≤ 1 := by
  have p1 := Real.sin_sq_add_cos_sq phi1
  have pd := Real.sin_sq_add_cos_sq delta
  have pt := Real.sin_sq_add_cos_sq (bearingAng phi1 lam1 phi2 lam2)
  have key : stepS phi1 lam1 phi2 lam2 delta ^ 2 +
      (Real.sin phi1 * Real.sin delta -
        Real.cos phi1 * Real.cos (bearingAng phi1 lam1 phi2 lam2) *
          Real.cos delta) ^ 2 +
      (Real.cos phi1 * Real.sin (bearingAng phi1 lam1 phi2 lam2)) ^ 2 = 1 := by
    unfold stepS
    linear_combination
      (Real.sin phi1 ^ 2 +
        Real.cos phi1 ^ 2 * Real.cos (bearingAng phi1 lam1 phi2 lam2) ^ 2) * pd +
      Real.cos phi1 ^ 2 * pt + p1
  constructor <;>
    nlinarith [key, sq_nonneg (stepS phi1 lam1 phi2 lam2 delta - 1),
      sq_nonneg (stepS phi1 lam1 phi2 lam2 delta + 1),
      sq_nonneg (Real.sin phi1 * Real.sin delta -
        Real.cos phi1 * Real.cos (bearingAng phi1 lam1 phi2 lam2) * Real.cos delta),
      sq_nonneg (Real.cos phi1 * Real.sin (bearingAng phi1 lam1 phi2 lam2))]

set_option maxHeartbeats 1000000 in
theorem innerAng_step (phi1 lam1 phi2 lam2 delta : ℝ)
    (hc1 : 0 < Real.cos phi1) :
    innerAng (stepPhi phi1 lam1 phi2 lam2 delta)
        (stepLam phi1 lam1 phi2 lam2 delta) phi2 lam2 =
      Real.cos (centralAngle phi1 lam1 phi2 lam2 - delta) := by
  obtain ⟨hS1, hS2⟩ := stepS_bounds phi1 lam1 phi2 lam2 delta
  set th := bearingAng phi1 lam1 phi2 lam2 with hth
  set S := stepS phi1 lam1 phi2 lam2 delta with hS
  set H1 := Real.cos delta * Real.cos phi1 -
    Real.sin delta * Real.cos th * Real.sin phi1 with hH1
  set H2 := Real.sin delta * Real.sin th with hH2
  have p1 := Real.sin_sq_add_cos_sq phi1
  have pd := Real.sin_sq_add_cos_sq delta
  have pt := Real.sin_sq_add_cos_sq th
  have hsinp : Real.sin (stepPhi phi1 lam1 phi2 lam2 delta) = S := by
    rw [show stepPhi phi1 lam1 phi2 lam2 delta = Real.arcsin S from rfl]
    exact Real.sin_arcsin hS1 hS2
  have hcosp : Real.cos (stepPhi phi1 lam1 phi2 lam2 delta) =
      Real.sqrt (1 - S ^ 2) := by
    rw [show stepPhi phi1 lam1 phi2 lam2 delta = Real.arcsin S from rfl]
    exact Real.cos_arcsin S
  have hnorm : H1 ^ 2 + H2 ^ 2 = 1 - S ^ 2 := by
    rw [hH1, hH2, hS]
    unfold stepS
    rw [← hth]
    linear_combination
      (Real.cos delta ^ 2 + Real.sin delta ^ 2 * Real.cos th ^ 2) * p1 +
        Real.sin delta ^ 2 * pt + pd
  have hlam : stepLam phi1 lam1 phi2 lam2 delta = lam1 + arctan2 H2 H1 := by
    unfold stepLam
    rw [← hth, hsinp]
    have e1 : Real.sin th * Real.sin delta * Real.cos phi1 =
        Real.cos phi1 * H2 := by
      rw [hH2]
      ring
    have e2 : Real.cos delta - Real.sin phi1 * S = Real.cos phi1 * H1 := by
      rw [hH1, hS]
      unfold stepS
      rw [← hth]
      linear_combination (-Real.cos delta) * p1
    rw [e1, e2, arctan2_smul H2 H1 (Real.cos phi1) hc1]
  set c := centralAngle phi1 lam1 phi2 lam2 with hc
  have hcosc : Real.cos c = innerAng phi1 lam1 phi2 lam2 :=
    cos_centralAngle phi1 lam1 phi2 lam2
  have hsc : Real.sin c =
      Real.cos th * bearingX phi1 lam1 phi2 lam2 +
        Real.sin th * bearingY phi1 lam1 phi2 lam2 := by
    rw [hc, sin_centralAngle]
    rw [show 1 - innerAng phi1 lam1 phi2 lam2 * innerAng phi1 lam1 phi2 lam2 =
        bearingX phi1 lam1 phi2 lam2 * bearingX phi1 lam1 phi2 lam2 +
          bearingY phi1 lam1 phi2 lam2 * bearingY phi1 lam1 phi2 lam2 from by
      linear_combination -bearing_sq_identity phi1 lam1 phi2 lam2]
    rw [hth]
    unfold bearingAng
    exact (arctan2_dot (bearingY phi1 lam1 phi2 lam2)
      (bearingX phi1 lam1 phi2 lam2)).symm
  have hprod1 : Real.sqrt (1 - S ^ 2) * Real.cos (arctan2 H2 H1) = H1 := by
    by_cases hH : H1 = 0 ∧ H2 = 0
    · rw [← hnorm, hH.1, hH.2]
      norm_num
    · have hpos : 0 < H1 * H1 + H2 * H2 := by
        rcases not_and_or.mp hH with hx | hy
        · nlinarith [mul_self_pos.mpr hx, mul_self_nonneg H2]
        · nlinarith [mul_self_pos.mpr hy, mul_self_nonneg H1]
      have hr : Real.sqrt (1 - S ^ 2) = Real.sqrt (H1 * H1 + H2 * H2) := by
        rw [← hnorm]
        congr 1
        ring
      rw [hr, cos_arctan2 H2 H1 hH]
      rw [mul_div_assoc']
      rw [mul_comm]
      rw [mul_div_assoc]
      rw [div_self (ne_of_gt (Real.sqrt_pos.mpr hpos))]
      ring
  have hprod2 : Real.sqrt (1 - S ^ 2) * Real.sin (arctan2 H2 H1) = H2 := by
    by_cases hH : H1 = 0 ∧ H2 = 0
    · rw [← hnorm, hH.1, hH.2]
      norm_num
    · have hpos : 0 < H1 * H1 + H2 * H2 := by
        rcases not_and_or.mp hH with hx | hy
        · nlinarith [mul_self_pos.mpr hx, mul_self_nonneg H2]
        · nlinarith [mul_self_pos.mpr hy, mul_self_nonneg H1]
      have hr : Real.sqrt (1 - S ^ 2) = Real.sqrt (H1 * H1 + H2 * H2) := by
        rw [← hnorm]
        congr 1
        ring
      rw [hr, sin_arctan2 H2 H1]
      rw [mul_div_assoc']
      rw [mul_comm]
      rw [mul_div_assoc]
      rw [div_self (ne_of_gt (Real.sqrt_pos.mpr hpos))]
      ring
  have step1 : innerAng (stepPhi phi1 lam1 phi2 lam2 delta)
      (stepLam phi1 lam1 phi2 lam2 delta) phi2 lam2 =
      S * Real.sin phi2 + Real.sqrt (1 - S ^ 2) * Real.cos phi2 *
        (Real.cos (lam2 - lam1) * Real.cos (arctan2 H2 H1) +
          Real.sin (lam2 - lam1) * Real.sin (arctan2 H2 H1)) := by
    show Real.sin (stepPhi phi1 lam1 phi2 lam2 delta) * Real.sin phi2 +
      Real.cos (stepPhi phi1 lam1 phi2 lam2 delta) * Real.cos phi2 *
        Real.cos (lam2 - stepLam phi1 lam1 phi2 lam2 delta) = _
    rw [hsinp, hcosp, hlam,
      show lam2 - (lam1 + arctan2 H2 H1) =
        (lam2 - lam1) - arctan2 H2 H1 by ring,
      Real.cos_sub]
  have step2 : S * Real.sin phi2 + Real.sqrt (1 - S ^ 2) * Real.cos phi2 *
      (Real.cos (lam2 - lam1) * Real.cos (arctan2 H2 H1) +
        Real.sin (lam2 - lam1) * Real.sin (arctan2 H2 H1)) =
      S * Real.sin phi2 + Real.cos phi2 *
        (Real.cos (lam2 - lam1) * H1 + Real.sin (lam2 - lam1) * H2) := by
    linear_combination (Real.cos phi2 * Real.cos (lam2 - lam1)) * hprod1 +
      (Real.cos phi2 * Real.sin (lam2 - lam1)) * hprod2
  have step3 : S * Real.sin phi2 + Real.cos phi2 *
      (Real.cos (lam2 - lam1) * H1 + Real.sin (lam2 - lam1) * H2) =
      Real.cos c * Real.cos delta + Real.sin c * Real.sin delta := by
    rw [hcosc, hsc, hS, hH1, hH2]
    unfold stepS innerAng bearingX bearingY
    rw [← hth]
    ring
  rw [step1, step2, step3, ← Real.cos_sub]

theorem calculateBearing_eq (lat1 lon1 lat2 lon2 : ℝ) :
    calculateBearing lat1 lon1 lat2 lon2 =
      bearingAng (lat1 * π / 180) (lon1 * π / 180)
        (lat2 * π / 180) (lon2 * π / 180) := by
  show arctan2 (Real.sin ((lon2 - lon1) * π / 180) * Real.cos (lat2 * π / 180))
      (Real.cos (lat1 * π / 180) * Real.sin (lat2 * π / 180) -
        Real.sin (lat1 * π / 180) * Real.cos (lat2 * π / 180) *
          Real.cos ((lon2 - lon1) * π / 180)) = _
  rw [show (lon2 - lon1) * π / 180 = lon2 * π / 180 - lon1 * π / 180 by ring]
  rfl

theorem centralAngle_eq_of_cos (pa la pb lb w : ℝ) (hw0 : 0 ≤ w)
    (hwpi : w ≤ π) (h : innerAng pa la pb lb = Real.cos w) :
    centralAngle pa la pb lb = w := by
  unfold centralAngle
  rw [hav_eq_innerAng, h]
  rw [show (1 - Real.cos w) / 2 = Real.sin (w / 2) * Real.sin (w / 2) from
    (sin_half_sq w).symm]
  rw [show Real.sin (w / 2) * Real.sin (w / 2) = Real.sin (w / 2) ^ 2 by ring]
  rw [Real.sqrt_sq (Real.sin_nonneg_of_nonneg_of_le_pi (by linarith)
    (by linarith [Real.pi_pos]))]
  rw [Real.arcsin_sin (by linarith [Real.pi_pos]) (by linarith)]
  ring

theorem moveTowardTarget_else (curLat curLon tgtLat tgtLon speed interval : ℝ)
    (h1 : ¬(calculateDistance curLat curLon tgtLat tgtLon < 0.05))
    (h2 : ¬(speed * interval / 3600 ≥
      calculateDistance curLat curLon tgtLat tgtLon)) :
    moveTowardTarget curLat curLon tgtLat tgtLon speed interval =
      ⟨stepPhi (curLat * π / 180) (curLon * π / 180) (tgtLat * π / 180)
          (tgtLon * π / 180) (speed * interval / 3600 / 6371) * 180 / π,
        stepLam (curLat * π / 180) (curLon * π / 180) (tgtLat * π / 180)
          (tgtLon * π / 180) (speed * interval / 3600 / 6371) * 180 / π,
        calculateDistance curLat curLon tgtLat tgtLon -
          speed * interval / 3600⟩ := by
  show (if calculateDistance curLat curLon tgtLat tgtLon < 0.05 then
      (⟨tgtLat, tgtLon, 0⟩ : MoveResult)
    else if speed * interval / 3600 ≥
        calculateDistance curLat curLon tgtLat tgtLon then
      ⟨tgtLat, tgtLon, 0⟩
    else
      ⟨Real.arcsin (Real.sin (curLat * π / 180) *
          Real.cos (speed * interval / 3600 / 6371) +
        Real.cos (curLat * π / 180) *
          Real.sin (speed * interval / 3600 / 6371) *
          Real.cos (calculateBearing curLat curLon tgtLat tgtLon)) * 180 / π,
        (curLon * π / 180 + arctan2
          (Real.sin (calculateBearing curLat curLon tgtLat tgtLon) *
            Real.sin (speed * interval / 3600 / 6371) *
            Real.cos (curLat * π / 180))
          (Real.cos (speed * interval / 3600 / 6371) -
            Real.sin (curLat * π / 180) *
              Real.sin (Real.arcsin (Real.sin (curLat * π / 180) *
                Real.cos (speed * interval / 3600 / 6371) +
              Real.cos (curLat * π / 180) *
                Real.sin (speed * interval / 3600 / 6371) *
                Real.cos (calculateBearing curLat curLon tgtLat tgtLon))))) *
          180 / π,
        calculateDistance curLat curLon tgtLat tgtLon -
          speed * interval / 3600⟩) = _
  rw [if_neg h1, if_neg h2, calculateBearing_eq]
  rfl

set_option maxHeartbeats 1000000 in
theorem moveTowardTarget_distance (curLat curLon tgtLat tgtLon speed
    interval : ℝ)
    (hc1 : 0 < Real.cos (curLat * π / 180))
    (hstep : 0 < speed * interval / 3600)
    (h1 : ¬(calculateDistance curLat curLon tgtLat tgtLon < 0.05))
    (h2 : ¬(speed * interval / 3600 ≥
      calculateDistance curLat curLon tgtLat tgtLon)) :
    calculateDistance
        (moveTowardTarget curLat curLon tgtLat tgtLon speed interval).latitude
        (moveTowardTarget curLat curLon tgtLat tgtLon speed interval).longitude
        tgtLat tgtLon =
      calculateDistance curLat curLon tgtLat tgtLon -
        speed * interval / 3600 := by
  rw [moveTowardTarget_else curLat curLon tgtLat tgtLon speed interval h1 h2]
  set phi1 := curLat * π / 180 with hphi1
  set lam1 := curLon * π / 180 with hlam1
  set phi2 := tgtLat * π / 180 with hphi2
  set lam2 := tgtLon * π / 180 with hlam2
  set delta := speed * interval / 3600 / 6371 with hdelta
  set c := centralAngle phi1 lam1 phi2 lam2 with hc
  have hd : calculateDistance curLat curLon tgtLat tgtLon = 6371 * c :=
    calculateDistance_eq curLat curLon tgtLat tgtLon
  have hcpi : c ≤ π := centralAngle_le_pi phi1 lam1 phi2 lam2
  have hdelta0 : 0 < delta := by
    rw [hdelta]
    positivity
  have hdc : delta < c := by
    rw [ge_iff_le, not_le] at h2
    rw [hd] at h2
    rw [hdelta]
    nlinarith
  have hback : ∀ u : ℝ, u * 180 / π * π / 180 = u := by
    intro u
    field_simp
  simp only [MoveResult.latitude, MoveResult.longitude]
  rw [calculateDistance_eq, hback, hback]
  rw [centralAngle_eq_of_cos _ _ _ _ (c - delta) (by linarith)
    (by linarith)
    (innerAng_step phi1 lam1 phi2 lam2 delta hc1)]
  rw [hd, hdelta]
  ring

theorem moveTowardTarget_snap_close (curLat curLon tgtLat tgtLon speed
    interval : ℝ)
    (h : calculateDistance curLat curLon tgtLat tgtLon < 0.05) :
    moveTowardTarget curLat curLon tgtLat tgtLon speed interval =
      ⟨tgtLat, tgtLon, 0⟩ := by
  show (if calculateDistance curLat curLon tgtLat tgtLon < 0.05 then
      (⟨tgtLat, tgtLon, 0⟩ : MoveResult)
    else _) = _
  rw [if_pos h]

theorem moveTowardTarget_snap_overshoot (curLat curLon tgtLat tgtLon speed
    interval : ℝ)
    (h1 : ¬(calculateDistance curLat curLon tgtLat tgtLon < 0.05))
    (h2 : speed * interval / 3600 ≥
      calculateDistance curLat curLon tgtLat tgtLon) :
    moveTowardTarget curLat curLon tgtLat tgtLon speed interval =
      ⟨tgtLat, tgtLon, 0⟩ := by
  show (if calculateDistance curLat curLon tgtLat tgtLon < 0.05 then
      (⟨tgtLat, tgtLon, 0⟩ : MoveResult)
    else if speed * interval / 3600 ≥
        calculateDistance curLat curLon tgtLat tgtLon then
      (⟨tgtLat, tgtLon, 0⟩ : MoveResult)
    else _) = _
  rw [if_neg h1, if_pos h2]

theorem stepToward_snap_close (speed interval : ℝ) (target current : ℝ × ℝ)
    (h : calculateDistance current.1 current.2 target.1 target.2 < 0.05) :
    stepToward speed interval target current = target := by
  unfold stepToward
  rw [moveTowardTarget_snap_close _ _ _ _ _ _ h]

theorem stepToward_snap_overshoot (speed interval : ℝ) (target current : ℝ × ℝ)
    (h1 : ¬(calculateDistance current.1 current.2 target.1 target.2 < 0.05))
    (h2 : speed * interval / 3600 ≥
      calculateDistance current.1 current.2 target.1 target.2) :
    stepToward speed interval target current = target := by
  unfold stepToward
  rw [moveTowardTarget_snap_overshoot _ _ _ _ _ _ h1 h2]

theorem stepToward_fixed (speed interval : ℝ) (target : ℝ × ℝ) :
    stepToward speed interval target target = target := by
  apply stepToward_snap_close
  rw [calculateDistance_self]
  norm_num

theorem stepToward_step_distance (speed interval : ℝ) (target current : ℝ × ℝ)
    (hpole : 0 < Real.cos (current.1 * π / 180))
    (hstep : 0 < speed * interval / 3600)
    (h1 : ¬(calculateDistance current.1 current.2 target.1 target.2 < 0.05))
    (h2 : ¬(speed * interval / 3600 ≥
      calculateDistance current.1 current.2 target.1 target.2)) :
    calculateDistance (stepToward speed interval target current).1
        (stepToward speed interval target current).2 target.1 target.2 =
      calculateDistance current.1 current.2 target.1 target.2 -
        speed * interval / 3600 :=
  moveTowardTarget_distance current.1 current.2 target.1 target.2 speed
    interval hpole hstep h1 h2

theorem stepToward_reaches_aux (speed interval : ℝ) (target : ℝ × ℝ)
    (hstep : 0 < speed * interval / 3600) :
    ∀ k : ℕ, ∀ p : ℝ × ℝ,
      (∀ n : ℕ,
        0 < Real.cos (((stepToward speed interval target)^[n] p).1 * π / 180)) →
      calculateDistance p.1 p.2 target.1 target.2 <
        0.05 + k * (speed * interval / 3600) →
      (stepToward speed interval target)^[k + 1] p = target := by
  intro k
  induction k with
  | zero =>
    intro p _ hd
    simp only [Nat.cast_zero, zero_mul, add_zero] at hd
    simp [Function.iterate_one, stepToward_snap_close speed interval target p hd]
  | succ k ih =>
    intro p hpole hd
    by_cases hclose : calculateDistance p.1 p.2 target.1 target.2 < 0.05
    · have hfix := stepToward_fixed speed interval target
      rw [Function.iterate_succ_apply,
        stepToward_snap_close speed interval target p hclose,
        Function.iterate_fixed hfix]
    · by_cases hover : speed * interval / 3600 ≥
          calculateDistance p.1 p.2 target.1 target.2
      · have hfix := stepToward_fixed speed interval target
        rw [Function.iterate_succ_apply,
          stepToward_snap_overshoot speed interval target p hclose hover,
          Function.iterate_fixed hfix]
      · rw [Function.iterate_succ_apply]
        apply ih
        · intro n
          rw [← Function.iterate_succ_apply]
          exact hpole (n + 1)
        · rw [stepToward_step_distance speed interval target p (hpole 0)
            hstep hclose hover]
          push_cast at hd ⊢
          linarith

theorem stepToward_terminates (speed interval : ℝ) (target p : ℝ × ℝ)
    (hstep : 0 < speed * interval / 3600)
    (hpole : ∀ n : ℕ,
      0 < Real.cos (((stepToward speed interval target)^[n] p).1 * π / 180)) :
    ∃ N : ℕ, ∀ m : ℕ, N ≤ m →
      (stepToward speed interval target)^[m] p = target := by
  obtain ⟨k, hk⟩ := exists_nat_gt
    ((calculateDistance p.1 p.2 target.1 target.2 - 0.05) /
      (speed * interval / 3600))
  have hd : calculateDistance p.1 p.2 target.1 target.2 <
      0.05 + k * (speed * interval / 3600) := by
    rw [div_lt_iff₀ hstep] at hk
    linarith
  refine ⟨k + 1, fun m hm => ?_⟩
  obtain ⟨j, rfl⟩ := Nat.exists_eq_add_of_le hm
  rw [add_comm (k + 1) j, Function.iterate_add_apply,
    stepToward_reaches_aux speed interval target hstep k p hpole hd,
    Function.iterate_fixed (stepToward_fixed speed interval target)]

theorem arctan2_zero_nonneg (x : ℝ) (hx : 0 ≤ x) : arctan2 0 x = 0 := by
  unfold arctan2
  have h : (⟨x, 0⟩ : ℂ) = (x : ℂ) := by
    apply Complex.ext <;> simp
  rw [h, Complex.arg_ofReal_of_nonneg hx]

theorem pole_d0 : calculateDistance 90 0 0 180 = 6371 * (π / 2) := by
  rw [calculateDistance_eq]
  rw [show (90 : ℝ) * π / 180 = π / 2 by ring,
      show (0 : ℝ) * π / 180 = 0 by ring,
      show (180 : ℝ) * π / 180 = π by ring]
  rw [centralAngle_eq_of_cos _ _ _ _ (π / 2) (by linarith [Real.pi_pos])
    (by linarith [Real.pi_pos]) ?_]
  unfold innerAng
  simp

theorem pole_bearing : bearingAng (π / 2) 0 0 π = 0 := by
  unfold bearingAng bearingY bearingX
  simp
  exact arctan2_zero_one

theorem pole_delta_lt : (30 : ℝ) * 2 / 3600 / 6371 < π / 2 := by
  nlinarith [Real.pi_gt_three]

theorem pole_stepPhi :
    stepPhi (π / 2) 0 0 π (30 * 2 / 3600 / 6371) =
      π / 2 - 30 * 2 / 3600 / 6371 := by
  unfold stepPhi stepS
  rw [pole_bearing]
  simp only [Real.sin_pi_div_two, Real.cos_pi_div_two, Real.cos_zero,
    one_mul, zero_mul, mul_one, add_zero, zero_add, mul_zero]
  rw [show Real.cos (30 * 2 / 3600 / 6371 : ℝ) =
      Real.sin (π / 2 - 30 * 2 / 3600 / 6371) from
    (Real.sin_pi_div_two_sub _).symm]
  rw [Real.arcsin_sin (by nlinarith [Real.pi_gt_three]) (by norm_num)]

theorem pole_stepLam :
    stepLam (π / 2) 0 0 π (30 * 2 / 3600 / 6371) = 0 := by
  unfold stepLam
  rw [pole_bearing, pole_stepPhi]
  rw [Real.sin_pi_div_two_sub]
  simp [arctan2_zero_zero]

theorem pole_step_one :
    stepToward 30 2 ((0 : ℝ), (180 : ℝ)) ((90 : ℝ), (0 : ℝ)) =
      ((π / 2 - 30 * 2 / 3600 / 6371) * 180 / π, 0) := by
  unfold stepToward
  have h1 : ¬(calculateDistance 90 0 0 180 < 0.05) := by
    rw [pole_d0]
    nlinarith [Real.pi_gt_three]
  have h2 : ¬((30 : ℝ) * 2 / 3600 ≥ calculateDistance 90 0 0 180) := by
    rw [pole_d0]
    nlinarith [Real.pi_gt_three]
  rw [moveTowardTarget_else 90 0 0 180 30 2 h1 h2]
  simp only []
  rw [show (90 : ℝ) * π / 180 = π / 2 by ring,
      show (0 : ℝ) * π / 180 = 0 by ring,
      show (180 : ℝ) * π / 180 = π by ring,
      pole_stepPhi, pole_stepLam]
  norm_num

theorem pole2_d1 :
    calculateDistance ((π / 2 - 30 * 2 / 3600 / 6371) * 180 / π) 0 0 180 =
      6371 * (π / 2 + 30 * 2 / 3600 / 6371) := by
  rw [calculateDistance_eq]
  rw [show (π / 2 - 30 * 2 / 3600 / 6371) * 180 / π * π / 180 =
      π / 2 - 30 * 2 / 3600 / 6371 from by
        field_simp
        ring,
      show (0 : ℝ) * π / 180 = 0 by ring,
      show (180 : ℝ) * π / 180 = π by ring]
  rw [centralAngle_eq_of_cos _ _ _ _ (π / 2 + 30 * 2 / 3600 / 6371)
    (by nlinarith [Real.pi_gt_three]) (by nlinarith [Real.pi_gt_three]) ?_]
  unfold innerAng
  simp only [Real.sin_zero, Real.cos_zero, mul_zero, zero_mul, sub_zero,
    mul_one, add_zero, zero_add, Real.cos_pi]
  rw [Real.cos_pi_div_two_sub, Real.cos_add]
  simp

theorem pole2_bearing :
    bearingAng (π / 2 - 30 * 2 / 3600 / 6371) 0 0 π = 0 := by
  unfold bearingAng bearingY bearingX
  simp only [sub_zero, Real.sin_pi, Real.cos_zero, zero_mul, mul_zero,
    Real.sin_zero, mul_one, Real.cos_pi, mul_neg, mul_one, zero_sub, neg_neg,
    one_mul]
  rw [Real.sin_pi_div_two_sub]
  exact arctan2_zero_nonneg _ (Real.cos_nonneg_of_mem_Icc
    ⟨by nlinarith [Real.pi_gt_three], by nlinarith [Real.pi_gt_three]⟩)

theorem pole2_stepPhi :
    stepPhi (π / 2 - 30 * 2 / 3600 / 6371) 0 0 π (30 * 2 / 3600 / 6371) =
      π / 2 := by
  unfold stepPhi stepS
  rw [pole2_bearing]
  rw [Real.sin_pi_div_two_sub, Real.cos_pi_div_two_sub, Real.cos_zero]
  rw [show Real.cos (30 * 2 / 3600 / 6371 : ℝ) *
        Real.cos (30 * 2 / 3600 / 6371 : ℝ) +
      Real.sin (30 * 2 / 3600 / 6371 : ℝ) *
        Real.sin (30 * 2 / 3600 / 6371 : ℝ) * 1 = 1 from by
    linear_combination Real.sin_sq_add_cos_sq (30 * 2 / 3600 / 6371 : ℝ)]
  exact Real.arcsin_one

theorem pole2_stepLam :
    stepLam (π / 2 - 30 * 2 / 3600 / 6371) 0 0 π (30 * 2 / 3600 / 6371) =
      0 := by
  unfold stepLam
  rw [pole2_bearing, pole2_stepPhi]
  rw [Real.sin_pi_div_two, Real.sin_pi_div_two_sub]
  simp [arctan2_zero_zero]

theorem pole_step_two :
    stepToward 30 2 ((0 : ℝ), (180 : ℝ))
        ((π / 2 - 30 * 2 / 3600 / 6371) * 180 / π, 0) =
      ((90 : ℝ), (0 : ℝ)) := by
  unfold stepToward
  have h1 : ¬(calculateDistance ((π / 2 - 30 * 2 / 3600 / 6371) * 180 / π) 0
      0 180 < 0.05) := by
    rw [pole2_d1]
    nlinarith [Real.pi_gt_three]
  have h2 : ¬((30 : ℝ) * 2 / 3600 ≥
      calculateDistance ((π / 2 - 30 * 2 / 3600 / 6371) * 180 / π) 0 0 180) := by
    rw [pole2_d1]
    nlinarith [Real.pi_gt_three]
  rw [moveTowardTarget_else _ 0 0 180 30 2 h1 h2]
  simp only []
  rw [show (π / 2 - 30 * 2 / 3600 / 6371) * 180 / π * π / 180 =
      π / 2 - 30 * 2 / 3600 / 6371 from by
        field_simp
        ring,
      show (0 : ℝ) * π / 180 = 0 by ring,
      show (180 : ℝ) * π / 180 = π by ring,
      pole2_stepPhi, pole2_stepLam]
  rw [Prod.mk.injEq]
  constructor
  · field_simp
    ring
  · norm_num

/-- C4 counterexample: starting exactly at the north pole (90, 0) and aiming
at (0, 180), the simulated step oscillates forever between the pole and a
point slightly south of it on the 0-meridian (the published destination-point
formula degenerates at the poles), so the iteration never reaches the
target. -/
theorem stepToward_pole_no_termination :
    stepToward 30 2 ((0 : ℝ), (180 : ℝ)) ((90 : ℝ), (0 : ℝ)) =
      ((π / 2 - 30 * 2 / 3600 / 6371) * 180 / π, 0) ∧
    stepToward 30 2 ((0 : ℝ), (180 : ℝ))
        ((π / 2 - 30 * 2 / 3600 / 6371) * 180 / π, 0) = (90, 0) ∧
    ∀ n : ℕ, (stepToward 30 2 ((0 : ℝ), (180 : ℝ)))^[n] (90, 0) ≠
      ((0 : ℝ), (180 : ℝ)) := by
  refine ⟨pole_step_one, pole_step_two, ?_⟩
  have key : ∀ n : ℕ,
      (stepToward 30 2 ((0 : ℝ), (180 : ℝ)))^[n] (90, 0) = ((90 : ℝ), (0 : ℝ)) ∨
      (stepToward 30 2 ((0 : ℝ), (180 : ℝ)))^[n] (90, 0) =
        ((π / 2 - 30 * 2 / 3600 / 6371) * 180 / π, 0) := by
    intro n
    induction n with
    | zero => exact Or.inl rfl
    | succ n ih =>
      rw [Function.iterate_succ_apply']
      rcases ih with h | h
      · rw [h, pole_step_one]
        exact Or.inr rfl
      · rw [h, pole_step_two]
        exact Or.inl rfl
  intro n
  have hpos : 0 < (π / 2 - 30 * 2 / 3600 / 6371) * 180 / π := by
    apply div_pos
    · apply mul_pos
      · linarith [pole_delta_lt]
      · norm_num
    · exact Real.pi_pos
  rcases key n with h | h <;> rw [h] <;> intro hc <;>
    rw [Prod.mk.injEq] at hc
  · have := hc.1
    norm_num at this
  · have := hc.1
    rw [this] at hpos
    norm_num at hpos

/-- C4 (amended): `stepToward` snaps exactly to the target when the remaining
distance is below 0.05 km or when the step distance meets or exceeds the
remaining distance; the target is a fixed point; and for positive speed and
interval the iteration reaches the target after finitely many steps and stays
there, provided the iterated positions never sit exactly on a pole
(`cos latitude ≠ 0`) — without that proviso the iteration can oscillate
forever, see the pole counterexample. -/
theorem stepToward_snap_and_termination (speed interval : ℝ)
    (target current : ℝ × ℝ) (hs : 0 < speed) (hi : 0 < interval) :
    (calculateDistance current.1 current.2 target.1 target.2 < 0.05 →
      stepToward speed interval target current = target) ∧
    (¬(calculateDistance current.1 current.2 target.1 target.2 < 0.05) →
      speed * interval / 3600 ≥
        calculateDistance current.1 current.2 target.1 target.2 →
      stepToward speed interval target current = target) ∧
    stepToward speed interval target target = target ∧
    ((∀ n : ℕ,
        0 < Real.cos (((stepToward speed interval target)^[n] current).1 *
          π / 180)) →
      ∃ N : ℕ, ∀ m : ℕ, N ≤ m →
        (stepToward speed interval target)^[m] current = target) := by
  have hstep : 0 < speed * interval / 3600 := by positivity
  exact ⟨stepToward_snap_close speed interval target current,
    stepToward_snap_overshoot speed interval target current,
    stepToward_fixed speed interval target,
    stepToward_terminates speed interval target current hstep⟩

/-- Witness for C4 with both points at the origin, speed 30, interval 2. -/
theorem stepToward_snap_and_termination_witness :
    ((0 : ℝ) < 30 ∧ (0 : ℝ) < 2 ∧
      calculateDistance (0 : ℝ) (0 : ℝ) (0 : ℝ) (0 : ℝ) < 0.05 ∧
      (∀ n : ℕ,
        0 < Real.cos (((stepToward 30 2 ((0 : ℝ), (0 : ℝ)))^[n]
          ((0 : ℝ), (0 : ℝ))).1 * π / 180))) ∧
    stepToward 30 2 ((0 : ℝ), (0 : ℝ)) ((0 : ℝ), (0 : ℝ)) =
      ((0 : ℝ), (0 : ℝ)) ∧
    ∃ N : ℕ, ∀ m : ℕ, N ≤ m →
      (stepToward 30 2 ((0 : ℝ), (0 : ℝ)))^[m] ((0 : ℝ), (0 : ℝ)) =
        ((0 : ℝ), (0 : ℝ)) := by
  have hdist : calculateDistance (0 : ℝ) (0 : ℝ) (0 : ℝ) (0 : ℝ) < 0.05 := by
    rw [calculateDistance_self]
    norm_num
  have hfix : stepToward 30 2 ((0 : ℝ), (0 : ℝ)) ((0 : ℝ), (0 : ℝ)) =
      ((0 : ℝ), (0 : ℝ)) := stepToward_fixed 30 2 ((0 : ℝ), (0 : ℝ))
  have hpole : ∀ n : ℕ,
      0 < Real.cos (((stepToward 30 2 ((0 : ℝ), (0 : ℝ)))^[n]
        ((0 : ℝ), (0 : ℝ))).1 * π / 180) := by
    intro n
    rw [Function.iterate_fixed hfix]
    norm_num
  have h := stepToward_snap_and_termination 30 2 ((0 : ℝ), (0 : ℝ))
    ((0 : ℝ), (0 : ℝ)) (by norm_num) (by norm_num)
  exact ⟨⟨by norm_num, by norm_num, hdist, hpole⟩, h.1 hdist, h.2.2.2 hpole⟩

theorem getDistance_arctan (p q : ℝ × ℝ) :
    getDistance p q =
      6371e3 * (2 * arctan2
        (Real.sqrt (hav (p.2 * π / 180) (p.1 * π / 180)
          (q.2 * π / 180) (q.1 * π / 180)))
        (Real.sqrt (1 - hav (p.2 * π / 180) (p.1 * π / 180)
          (q.2 * π / 180) (q.1 * π / 180)))) := by
  have ha : Real.sin ((q.2 - p.2) * π / 180 / 2) *
        Real.sin ((q.2 - p.2) * π / 180 / 2) +
      Real.cos (p.2 * π / 180) * Real.cos (q.2 * π / 180) *
        Real.sin ((q.1 - p.1) * π / 180 / 2) *
        Real.sin ((q.1 - p.1) * π / 180 / 2) =
      hav (p.2 * π / 180) (p.1 * π / 180) (q.2 * π / 180) (q.1 * π / 180) := by
    unfold hav
    rw [show (q.2 - p.2) * π / 180 / 2 =
          (q.2 * π / 180 - p.2 * π / 180) / 2 by ring,
        show (q.1 - p.1) * π / 180 / 2 =
          (q.1 * π / 180 - p.1 * π / 180) / 2 by ring]
    ring
  show 6371e3 * (2 * arctan2
      (Real.sqrt (Real.sin ((q.2 - p.2) * π / 180 / 2) *
          Real.sin ((q.2 - p.2) * π / 180 / 2) +
        Real.cos (p.2 * π / 180) * Real.cos (q.2 * π / 180) *
          Real.sin ((q.1 - p.1) * π / 180 / 2) *
          Real.sin ((q.1 - p.1) * π / 180 / 2)))
      (Real.sqrt (1 - (Real.sin ((q.2 - p.2) * π / 180 / 2) *
          Real.sin ((q.2 - p.2) * π / 180 / 2) +
        Real.cos (p.2 * π / 180) * Real.cos (q.2 * π / 180) *
          Real.sin ((q.1 - p.1) * π / 180 / 2) *
          Real.sin ((q.1 - p.1) * π / 180 / 2))))) = _
  rw [ha]

theorem getDistance_eq (p q : ℝ × ℝ) :
    getDistance p q =
      6371e3 * centralAngle (p.2 * π / 180) (p.1 * π / 180)
        (q.2 * π / 180) (q.1 * π / 180) := by
  rw [getDistance_arctan,
    arctan2_sqrt_eq_arcsin (hav_nonneg _ _ _ _) (hav_le_one _ _ _ _)]
  rfl

theorem getDistance_nonneg (p q : ℝ × ℝ) : 0 ≤ getDistance p q := by
  rw [getDistance_eq]
  have := centralAngle_nonneg (p.2 * π / 180) (p.1 * π / 180)
    (q.2 * π / 180) (q.1 * π / 180)
  nlinarith

theorem zipWith_getDistance_sum_nonneg :
    ∀ l1 l2 : List (ℝ × ℝ), 0 ≤ (List.zipWith getDistance l1 l2).sum := by
  intro l1
  induction l1 with
  | nil => intro l2; simp
  | cons a t ih =>
    intro l2
    cases l2 with
    | nil => simp
    | cons b t2 =>
      rw [List.zipWith_cons_cons, List.sum_cons]
      have h1 := getDistance_nonneg a b
      have h2 := ih t2
      linarith

theorem segDistances_sum_nonneg (cs : List (ℝ × ℝ)) :
    0 ≤ (segDistances cs).sum :=
  zipWith_getDistance_sum_nonneg cs cs.tail

theorem interpGo_spec :
    ∀ (rest : List (ℝ × ℝ)) (c : ℝ × ℝ) (T : ℝ), rest ≠ [] →
      T ≤ (segDistances (c :: rest)).sum →
      ∃ i : ℕ, i < (segDistances (c :: rest)).length ∧
        T ≤ ((segDistances (c :: rest)).take i).sum +
          (segDistances (c :: rest)).getD i 0 ∧
        (∀ j : ℕ, j < i →
          ((segDistances (c :: rest)).take j).sum +
            (segDistances (c :: rest)).getD j 0 < T) ∧
        interpGo c rest T =
          interpolatePoints ((c :: rest).getD i (0, 0))
            ((c :: rest).getD (i + 1) (0, 0))
            ((T - ((segDistances (c :: rest)).take i).sum) /
              (segDistances (c :: rest)).getD i 0) := by
  intro rest
  induction rest with
  | nil => intro c T hne _; exact absurd rfl hne
  | cons c2 rest' ih =>
    intro c T _ hT
    have hseg : segDistances (c :: c2 :: rest') =
        getDistance c c2 :: segDistances (c2 :: rest') := rfl
    by_cases hfire : T ≤ getDistance c c2
    · refine ⟨0, ?_, ?_, ?_, ?_⟩
      · rw [hseg]
        simp
      · rw [hseg]
        simpa using hfire
      · intro j hj
        omega
      · show (if T ≤ getDistance c c2 then
            interpolatePoints c c2 (T / getDistance c c2)
          else interpGo c2 rest' (T - getDistance c c2)) = _
        rw [if_pos hfire, hseg]
        simp
    · cases rest' with
      | nil =>
        exfalso
        apply hfire
        have : (segDistances (c :: c2 :: ([] : List (ℝ × ℝ)))).sum =
            getDistance c c2 := by
          unfold segDistances
          simp
        rw [this] at hT
        exact hT
      | cons c3 rest'' =>
        have hsum : T - getDistance c c2 ≤
            (segDistances (c2 :: c3 :: rest'')).sum := by
          rw [hseg, List.sum_cons] at hT
          linarith
        obtain ⟨i', hlen', hge', hlt', heq'⟩ :=
          ih c2 (T - getDistance c c2) (by simp) hsum
        refine ⟨i' + 1, ?_, ?_, ?_, ?_⟩
        · rw [hseg, List.length_cons]
          omega
        · rw [hseg, List.take_succ_cons, List.sum_cons, List.getD_cons_succ]
          linarith
        · intro j hj
          match j with
          | 0 =>
            rw [hseg, List.take_zero, List.sum_nil, List.getD_cons_zero,
              zero_add]
            exact lt_of_not_le hfire
          | j' + 1 =>
            rw [hseg, List.take_succ_cons, List.sum_cons, List.getD_cons_succ]
            have := hlt' j' (by omega)
            linarith
        · show (if T ≤ getDistance c c2 then
              interpolatePoints c c2 (T / getDistance c c2)
            else interpGo c2 (c3 :: rest'') (T - getDistance c c2)) = _
          rw [if_neg hfire, hseg, List.take_succ_cons, List.sum_cons,
            List.getD_cons_succ, List.getD_cons_succ, List.getD_cons_succ,
            sub_add_eq_sub_sub]
          exact heq'

/-- C9: on a non-empty path, `interpolate` returns the first point for
progress ≤ 0, the last point unmodified for progress ≥ 1, and otherwise the
point of the first segment whose cumulative haversine arc length reaches
`totalDistance * progress`, linearly interpolated inside that segment by the
residual fraction. -/
theorem interpolate_spec (coordinates : List (ℝ × ℝ)) (progress : ℝ)
    (hne : coordinates ≠ []) :
    (progress ≤ 0 → interpolate coordinates progress = coordinates.head hne) ∧
    (1 ≤ progress →
      interpolate coordinates progress = coordinates.getLast hne) ∧
    (0 < progress → progress < 1 → 2 ≤ coordinates.length →
      ∃ i : ℕ, i < (segDistances coordinates).length ∧
        totalPathDistance coordinates * progress ≤
          ((segDistances coordinates).take i).sum +
            (segDistances coordinates).getD i 0 ∧
        (∀ j : ℕ, j < i →
          ((segDistances coordinates).take j).sum +
            (segDistances coordinates).getD j 0 <
              totalPathDistance coordinates * progress) ∧
        interpolate coordinates progress =
          interpolatePoints (coordinates.getD i (0, 0))
            (coordinates.getD (i + 1) (0, 0))
            ((totalPathDistance coordinates * progress -
              ((segDistances coordinates).take i).sum) /
              (segDistances coordinates).getD i 0)) := by
  obtain ⟨c, rest, rfl⟩ := List.exists_cons_of_ne_nil hne
  refine ⟨?_, ?_, ?_⟩
  · intro h0
    unfold interpolate
    rw [if_pos h0]
    rfl
  · intro h1
    unfold interpolate
    rw [if_neg (by linarith), if_pos h1]
    rw [List.getLast?_eq_getLast _ hne]
    rfl
  · intro hp0 hp1 hlen
    have hrest : rest ≠ [] := by
      intro h
      rw [h] at hlen
      simp at hlen
    have htot : totalPathDistance (c :: rest) =
        (segDistances (c :: rest)).sum := rfl
    have hT : totalPathDistance (c :: rest) * progress ≤
        (segDistances (c :: rest)).sum := by
      rw [htot]
      exact mul_le_of_le_one_right (segDistances_sum_nonneg _) (le_of_lt hp1)
    have hi : interpolate (c :: rest) progress =
        interpGo c rest (totalPathDistance (c :: rest) * progress) := by
      unfold interpolate
      rw [if_neg (by linarith), if_neg (by linarith)]
    obtain ⟨i, h1, h2, h3, h4⟩ :=
      interpGo_spec rest c (totalPathDistance (c :: rest) * progress) hrest hT
    exact ⟨i, h1, h2, h3, by rw [hi, h4]⟩

/-- Witness for C9 on the two-point path from the origin to (1, 1) with
progress 0. -/
theorem interpolate_spec_witness :
    ([((0 : ℝ), (0 : ℝ)), ((1 : ℝ), (1 : ℝ))] ≠ ([] : List (ℝ × ℝ))) ∧
    interpolate [((0 : ℝ), (0 : ℝ)), ((1 : ℝ), (1 : ℝ))] 0 =
      ((0 : ℝ), (0 : ℝ)) := by
  have h := interpolate_spec [((0 : ℝ), (0 : ℝ)), ((1 : ℝ), (1 : ℝ))] 0
    (by simp)
  exact ⟨by simp, by rw [h.1 le_rfl]; rfl⟩


theorem arrivalEffect_none (now : ℕ) (s : TrackState)
    (h : s.booking.currentRide = none ∨ s.driverLocation = none) :
    arrivalEffect now s = (s, false) := by
  unfold arrivalEffect
  rcases hcr : s.booking.currentRide with _ | ride
  · rfl
  · rcases hdl : s.driverLocation with _ | loc
    · rfl
    · rcases h with h | h
      · rw [hcr] at h
        exact absurd h (by simp)
      · rw [hdl] at h
        exact absurd h (by simp)

theorem arrivalEffect_fire_pickup (now : ℕ) (s : TrackState) (ride : Ride)
    (loc : MapLocation)
    (hcr : s.booking.currentRide = some ride)
    (hdl : s.driverLocation = some loc)
    (hflag : s.arrivalAtPickupRef = false)
    (hst : ride.status = .requested ∨ ride.status = .accepted)
    (hdist : calculateDistance loc.latitude loc.longitude
      ride.pickup.latitude ride.pickup.longitude < 0.05) :
    arrivalEffect now s =
      ({ s with
          booking := rideBookingReducer s.booking (.SET_CURRENT_RIDE
            (some { ride with status := .arriving, updatedAt := now }))
          arrivalAtPickupRef := true
          inProgressTimeoutRef := some (now + 3000,
            { ride with status := .arriving, updatedAt := now }) }, true) := by
  unfold arrivalEffect
  simp only [hcr, hdl]
  rw [if_pos ⟨hflag, hst, hdist⟩]

theorem arrivalEffect_fire_dest (now : ℕ) (s : TrackState) (ride : Ride)
    (loc : MapLocation)
    (hcr : s.booking.currentRide = some ride)
    (hdl : s.driverLocation = some loc)
    (hflag : s.arrivalAtDestinationRef = false)
    (hst : ride.status = .in_progress)
    (hdist : calculateDistance loc.latitude loc.longitude
      ride.destination.latitude ride.destination.longitude < 0.05) :
    arrivalEffect now s =
      ({ s with
          booking := rideBookingReducer s.booking (.SET_CURRENT_RIDE
            (some { ride with status := .completed, updatedAt := now }))
          arrivalAtDestinationRef := true }, true) := by
  unfold arrivalEffect
  simp only [hcr, hdl]
  rw [if_neg, if_pos ⟨hflag, hst, hdist⟩]
  rintro ⟨-, hs, -⟩
  rcases hs with hs | hs <;> rw [hst] at hs <;> exact RideStatus.noConfusion hs

theorem arrivalEffect_nofire (now : ℕ) (s : TrackState) (ride : Ride)
    (loc : MapLocation)
    (hcr : s.booking.currentRide = some ride)
    (hdl : s.driverLocation = some loc)
    (hpick : ¬(s.arrivalAtPickupRef = false ∧
      (ride.status = .requested ∨ ride.status = .accepted) ∧
      calculateDistance loc.latitude loc.longitude
        ride.pickup.latitude ride.pickup.longitude < 0.05))
    (hdest : ¬(s.arrivalAtDestinationRef = false ∧
      ride.status = .in_progress ∧
      calculateDistance loc.latitude loc.longitude
        ride.destination.latitude ride.destination.longitude < 0.05)) :
    arrivalEffect now s = (s, false) := by
  unfold arrivalEffect
  simp only [hcr, hdl]
  rw [if_neg hpick, if_neg hdest]

theorem getTargetLocation_pickup (ride : Ride)
    (h : ride.status = .requested ∨ ride.status = .accepted) :
    getTargetLocation ride = some ride.pickup := by
  unfold getTargetLocation
  rcases h with h | h <;> rw [h]

theorem getTargetLocation_dest (ride : Ride) (h : ride.status = .in_progress) :
    getTargetLocation ride = some ride.destination := by
  unfold getTargetLocation
  rw [h]

theorem applyTick_idle (now : ℕ) (s : TrackState)
    (h : s.booking.currentRide = none ∨ s.driverLocation = none ∨
      ∀ ride, s.booking.currentRide = some ride →
        getTargetLocation ride = none) :
    applyTick now s = s := by
  unfold applyTick
  rcases hcr : s.booking.currentRide with _ | ride
  · rfl
  · rcases hdl : s.driverLocation with _ | prev
    · rfl
    · rcases h with h | h | h
      · rw [hcr] at h
        exact absurd h (by simp)
      · rw [hdl] at h
        exact absurd h (by simp)
      · simp only [h ride hcr]

theorem applyTick_eq (now : ℕ) (s : TrackState) (ride : Ride)
    (prev : MapLocation) (tgt : MapLocation)
    (hcr : s.booking.currentRide = some ride)
    (hdl : s.driverLocation = some prev)
    (htgt : getTargetLocation ride = some tgt) :
    applyTick now s =
      (if (arrivalEffect now { s with
          driverLocation := some (intervalStep ride s.arrivalAtPickupRef
            s.arrivalAtDestinationRef prev)
          inProgressTimeoutRef := none }).2 = true then
        { (arrivalEffect now { s with
            driverLocation := some (intervalStep ride s.arrivalAtPickupRef
              s.arrivalAtDestinationRef prev)
            inProgressTimeoutRef := none }).1 with
          inProgressTimeoutRef := none }
      else (arrivalEffect now { s with
          driverLocation := some (intervalStep ride s.arrivalAtPickupRef
            s.arrivalAtDestinationRef prev)
          inProgressTimeoutRef := none }).1) := by
  unfold applyTick
  rw [hcr, hdl]
  simp only [htgt]

theorem applyTick_fire_pickup (now : ℕ) (s : TrackState) (ride : Ride)
    (prev : MapLocation)
    (hcr : s.booking.currentRide = some ride)
    (hdl : s.driverLocation = some prev)
    (hflag : s.arrivalAtPickupRef = false)
    (hst : ride.status = .requested ∨ ride.status = .accepted)
    (hdist : calculateDistance
      (intervalStep ride s.arrivalAtPickupRef s.arrivalAtDestinationRef
        prev).latitude
      (intervalStep ride s.arrivalAtPickupRef s.arrivalAtDestinationRef
        prev).longitude
      ride.pickup.latitude ride.pickup.longitude < 0.05) :
    applyTick now s =
      { s with
          driverLocation := some (intervalStep ride s.arrivalAtPickupRef
            s.arrivalAtDestinationRef prev)
          booking := rideBookingReducer s.booking (.SET_CURRENT_RIDE
            (some { ride with status := .arriving, updatedAt := now }))
          arrivalAtPickupRef := true
          inProgressTimeoutRef := none } := by
  rw [applyTick_eq now s ride prev ride.pickup hcr hdl
    (getTargetLocation_pickup ride hst)]
  rw [arrivalEffect_fire_pickup now
    { s with
        driverLocation := some (intervalStep ride s.arrivalAtPickupRef
          s.arrivalAtDestinationRef prev)
        inProgressTimeoutRef := none } ride
    (intervalStep ride s.arrivalAtPickupRef s.arrivalAtDestinationRef prev)
    hcr rfl hflag hst hdist]
  rfl

theorem applyTick_fire_dest (now : ℕ) (s : TrackState) (ride : Ride)
    (prev : MapLocation)
    (hcr : s.booking.currentRide = some ride)
    (hdl : s.driverLocation = some prev)
    (hflag : s.arrivalAtDestinationRef = false)
    (hst : ride.status = .in_progress)
    (hdist : calculateDistance
      (intervalStep ride s.arrivalAtPickupRef s.arrivalAtDestinationRef
        prev).latitude
      (intervalStep ride s.arrivalAtPickupRef s.arrivalAtDestinationRef
        prev).longitude
      ride.destination.latitude ride.destination.longitude < 0.05) :
    applyTick now s =
      { s with
          driverLocation := some (intervalStep ride s.arrivalAtPickupRef
            s.arrivalAtDestinationRef prev)
          booking := rideBookingReducer s.booking (.SET_CURRENT_RIDE
            (some { ride with status := .completed, updatedAt := now }))
          arrivalAtDestinationRef := true
          inProgressTimeoutRef := none } := by
  rw [applyTick_eq now s ride prev ride.destination hcr hdl
    (getTargetLocation_dest ride hst)]
  rw [arrivalEffect_fire_dest now
    { s with
        driverLocation := some (intervalStep ride s.arrivalAtPickupRef
          s.arrivalAtDestinationRef prev)
        inProgressTimeoutRef := none } ride
    (intervalStep ride s.arrivalAtPickupRef s.arrivalAtDestinationRef prev)
    hcr rfl hflag hst hdist]
  rfl

theorem applyTick_nofire (now : ℕ) (s : TrackState) (ride : Ride)
    (prev : MapLocation) (tgt : MapLocation)
    (hcr : s.booking.currentRide = some ride)
    (hdl : s.driverLocation = some prev)
    (htgt : getTargetLocation ride = some tgt)
    (hpick : ¬(s.arrivalAtPickupRef = false ∧
      (ride.status = .requested ∨ ride.status = .accepted) ∧
      calculateDistance
        (intervalStep ride s.arrivalAtPickupRef s.arrivalAtDestinationRef
          prev).latitude
        (intervalStep ride s.arrivalAtPickupRef s.arrivalAtDestinationRef
          prev).longitude
        ride.pickup.latitude ride.pickup.longitude < 0.05))
    (hdest : ¬(s.arrivalAtDestinationRef = false ∧ ride.status = .in_progress ∧
      calculateDistance
        (intervalStep ride s.arrivalAtPickupRef s.arrivalAtDestinationRef
          prev).latitude
        (intervalStep ride s.arrivalAtPickupRef s.arrivalAtDestinationRef
          prev).longitude
        ride.destination.latitude ride.destination.longitude < 0.05)) :
    applyTick now s =
      { s with
          driverLocation := some (intervalStep ride s.arrivalAtPickupRef
            s.arrivalAtDestinationRef prev)
          inProgressTimeoutRef := none } := by
  rw [applyTick_eq now s ride prev tgt hcr hdl htgt]
  rw [arrivalEffect_nofire now
    { s with
        driverLocation := some (intervalStep ride s.arrivalAtPickupRef
          s.arrivalAtDestinationRef prev)
        inProgressTimeoutRef := none } ride
    (intervalStep ride s.arrivalAtPickupRef s.arrivalAtDestinationRef prev)
    hcr rfl hpick hdest]
  rfl

theorem arrivalEffect_flagP_mono (now : ℕ) (s : TrackState)
    (h : s.arrivalAtPickupRef = true) :
    (arrivalEffect now s).1.arrivalAtPickupRef = true := by
  unfold arrivalEffect
  split
  · split_ifs <;> simp [h]
  · simp [h]

theorem arrivalEffect_flagD_mono (now : ℕ) (s : TrackState)
    (h : s.arrivalAtDestinationRef = true) :
    (arrivalEffect now s).1.arrivalAtDestinationRef = true := by
  unfold arrivalEffect
  split
  · split_ifs <;> simp [h]
  · simp [h]

theorem applyTick_flagP_mono (now : ℕ) (s : TrackState)
    (h : s.arrivalAtPickupRef = true) :
    (applyTick now s).arrivalAtPickupRef = true := by
  unfold applyTick
  split
  · split
    · exact h
    · rename_i ride loc hcr hdl xx tgt htgt
      have hm := arrivalEffect_flagP_mono now
        { s with
            driverLocation := some (intervalStep ride s.arrivalAtPickupRef
              s.arrivalAtDestinationRef loc)
            inProgressTimeoutRef := none } h
      dsimp only
      split_ifs <;> simpa using hm
  · exact h

theorem applyTick_flagD_mono (now : ℕ) (s : TrackState)
    (h : s.arrivalAtDestinationRef = true) :
    (applyTick now s).arrivalAtDestinationRef = true := by
  unfold applyTick
  split
  · split
    · exact h
    · rename_i ride loc hcr hdl xx tgt htgt
      have hm := arrivalEffect_flagD_mono now
        { s with
            driverLocation := some (intervalStep ride s.arrivalAtPickupRef
              s.arrivalAtDestinationRef loc)
            inProgressTimeoutRef := none } h
      dsimp only
      split_ifs <;> simpa using hm
  · exact h

theorem applyTimerFire_none (now : ℕ) (s : TrackState)
    (h : s.inProgressTimeoutRef = none) : applyTimerFire now s = s := by
  unfold applyTimerFire
  rw [h]

theorem applyTimerFire_flagP_mono (now : ℕ) (s : TrackState)
    (h : s.arrivalAtPickupRef = true) :
    (applyTimerFire now s).arrivalAtPickupRef = true := by
  unfold applyTimerFire
  split
  · exact h
  · rename_i t updatedRide heq
    have hm := arrivalEffect_flagP_mono now
      { s with
          booking := rideBookingReducer s.booking (.SET_CURRENT_RIDE
            (some { updatedRide with status := .in_progress, updatedAt := now }))
          inProgressTimeoutRef := none } h
    dsimp only
    split_ifs <;> simpa using hm

theorem applyTimerFire_flagD_mono (now : ℕ) (s : TrackState)
    (h : s.arrivalAtDestinationRef = true) :
    (applyTimerFire now s).arrivalAtDestinationRef = true := by
  unfold applyTimerFire
  split
  · exact h
  · rename_i t updatedRide heq
    have hm := arrivalEffect_flagD_mono now
      { s with
          booking := rideBookingReducer s.booking (.SET_CURRENT_RIDE
            (some { updatedRide with status := .in_progress, updatedAt := now }))
          inProgressTimeoutRef := none } h
    dsimp only
    split_ifs <;> simpa using hm

theorem arrivalEffect_currentRide (now : ℕ) (s : TrackState) :
    (arrivalEffect now s).1.booking.currentRide = s.booking.currentRide ∨
    (∃ ride, s.booking.currentRide = some ride ∧
      (ride.status = .requested ∨ ride.status = .accepted) ∧
      (arrivalEffect now s).1.booking.currentRide =
        some { ride with status := .arriving, updatedAt := now }) ∨
    (∃ ride, s.booking.currentRide = some ride ∧
      ride.status = .in_progress ∧
      (arrivalEffect now s).1.booking.currentRide =
        some { ride with status := .completed, updatedAt := now }) := by
  unfold arrivalEffect
  split
  · rename_i ride loc hcr hdl
    split_ifs with h1 h2
    · right
      left
      exact ⟨ride, hcr, h1.2.1, rfl⟩
    · right
      right
      exact ⟨ride, hcr, h2.2.1, rfl⟩
    · left
      rfl
  · left
    rfl

theorem arrivalEffect_cases (now : ℕ) (s : TrackState) :
    arrivalEffect now s = (s, false) ∨ (arrivalEffect now s).2 = true := by
  unfold arrivalEffect
  split
  · split_ifs
    · right
      rfl
    · right
      rfl
    · left
      rfl
  · left
    rfl

theorem arrivalEffect_false (now : ℕ) (s : TrackState)
    (h : (arrivalEffect now s).2 = false) : (arrivalEffect now s).1 = s := by
  rcases arrivalEffect_cases now s with hc | hc
  · rw [hc]
  · rw [hc] at h
    exact absurd h (by simp)

theorem applyTick_timer_preserve (now : ℕ) (s : TrackState)
    (h : s.inProgressTimeoutRef = none) :
    (applyTick now s).inProgressTimeoutRef = none := by
  unfold applyTick
  split
  · split
    · exact h
    · rename_i ride loc hcr hdl xx tgt htgt
      dsimp only
      split_ifs with hf
      · rfl
      · rw [arrivalEffect_false now _ (by simpa using hf)]
  · exact h

theorem applyTick_status_safe (now : ℕ) (s : TrackState)
    (hinv : ∀ r, s.booking.currentRide = some r → r.status ≠ .in_progress) :
    ∀ r', (applyTick now s).booking.currentRide = some r' →
      r'.status ≠ .in_progress := by
  intro r' hr'
  unfold applyTick at hr'
  split at hr'
  · split at hr'
    · exact hinv r' hr'
    · rename_i ride loc hcr hdl xx tgt htgt
      dsimp only at hr'
      have hcur : ∀ b : Bool, ∀ st : TrackState,
          (if b = true then { st with inProgressTimeoutRef := none }
            else st).booking.currentRide = st.booking.currentRide := by
        intro b st
        split_ifs <;> rfl
      rw [hcur] at hr'
      rcases arrivalEffect_currentRide now
          { s with
              driverLocation := some (intervalStep ride s.arrivalAtPickupRef
                s.arrivalAtDestinationRef loc)
              inProgressTimeoutRef := none } with
        hsame | ⟨ride2, hcr2, hst2, heq2⟩ | ⟨ride2, hcr2, hst2, heq2⟩
      · rw [hsame] at hr'
        exact hinv r' hr'
      · rw [heq2] at hr'
        rw [← Option.some_inj.mp hr']
        simp
      · rw [heq2] at hr'
        rw [← Option.some_inj.mp hr']
        simp
  · exact hinv r' hr'

theorem runEvents_no_inprogress (evs : List SimEvent) :
    ∀ s : TrackState, s.inProgressTimeoutRef = none →
      (∀ r, s.booking.currentRide = some r → r.status ≠ .in_progress) →
      (runEvents evs s).inProgressTimeoutRef = none ∧
      ∀ r, (runEvents evs s).booking.currentRide = some r →
        r.status ≠ .in_progress := by
  induction evs with
  | nil => intro s h1 h2; exact ⟨h1, h2⟩
  | cons ev evs ih =>
    intro s h1 h2
    cases ev with
    | tick t =>
      rw [show runEvents (.tick t :: evs) s = runEvents evs (applyTick t s)
        from rfl]
      exact ih (applyTick t s) (applyTick_timer_preserve t s h1)
        (applyTick_status_safe t s h2)
    | timerFire t =>
      rw [show runEvents (.timerFire t :: evs) s =
        runEvents evs (applyTimerFire t s) from rfl]
      rw [applyTimerFire_none t s h1]
      exact ih s h1 h2

theorem sampleLoc_dist : calculateDistance sampleLoc.latitude
    sampleLoc.longitude sampleLoc.latitude sampleLoc.longitude < 0.05 := by
  rw [calculateDistance_self]
  norm_num

theorem intervalStep_origin_requested :
    intervalStep (sampleRide .requested) false false sampleLoc = sampleLoc := by
  unfold intervalStep
  rw [if_neg (by simp [sampleRide])]
  rw [show getTargetLocation (sampleRide .requested) = some sampleLoc from rfl]
  dsimp only
  rw [moveTowardTarget_snap_close sampleLoc.latitude sampleLoc.longitude
    sampleLoc.latitude sampleLoc.longitude 30 2 sampleLoc_dist]
  dsimp only [sampleRide]
  rw [if_pos ⟨Or.inl rfl, rfl, sampleLoc_dist⟩]
  rfl

theorem intervalStep_origin_in_progress :
    intervalStep (sampleRide .in_progress) false false sampleLoc =
      sampleLoc := by
  unfold intervalStep
  rw [if_neg (by simp [sampleRide])]
  rw [show getTargetLocation (sampleRide .in_progress) = some sampleLoc from
    rfl]
  dsimp only
  rw [moveTowardTarget_snap_close sampleLoc.latitude sampleLoc.longitude
    sampleLoc.latitude sampleLoc.longitude 30 2 sampleLoc_dist]
  dsimp only [sampleRide]
  rw [if_neg, if_pos ⟨rfl, rfl, sampleLoc_dist⟩]
  · rfl
  · rintro ⟨hs, -, -⟩
    rcases hs with hs | hs <;> exact RideStatus.noConfusion hs

theorem applyTick_origin_requested :
    (applyTick 5 (trackStateWithRide .requested)).booking.currentRide =
      some { sampleRide .requested with status := .arriving, updatedAt := 5 } ∧
    (applyTick 5 (trackStateWithRide .requested)).arrivalAtPickupRef = true ∧
    (applyTick 5 (trackStateWithRide .requested)).inProgressTimeoutRef =
      none := by
  rw [applyTick_fire_pickup 5 (trackStateWithRide .requested)
    (sampleRide .requested) sampleLoc rfl rfl rfl (Or.inl rfl)
    (by
      dsimp only [trackStateWithRide]
      rw [intervalStep_origin_requested]
      exact sampleLoc_dist)]
  exact ⟨rfl, rfl, rfl⟩

theorem applyTick_origin_in_progress :
    (applyTick 7 (trackStateWithRide .in_progress)).booking.currentRide =
      some { sampleRide .in_progress with
        status := .completed, updatedAt := 7 } ∧
    (applyTick 7 (trackStateWithRide .in_progress)).booking.rideHistory =
      [] ∧
    (applyTick 7 (trackStateWithRide .in_progress)).arrivalAtDestinationRef =
      true := by
  rw [applyTick_fire_dest 7 (trackStateWithRide .in_progress)
    (sampleRide .in_progress) sampleLoc rfl rfl rfl rfl
    (by
      dsimp only [trackStateWithRide]
      rw [intervalStep_origin_in_progress]
      exact sampleLoc_dist)]
  exact ⟨rfl, rfl, rfl⟩

theorem cancelRide_success (state : RideBookingState) (rideId : String)
    (now : ℕ) (ride : Ride) (hcr : state.currentRide = some ride)
    (hid : ride.id = rideId) :
    cancelRide state rideId now =
      (true, rideBookingReducer
        (rideBookingReducer state (.SET_CURRENT_RIDE none))
        (.ADD_TO_RIDE_HISTORY
          { ride with status := .cancelled, updatedAt := now })) := by
  unfold cancelRide
  simp only [hcr]
  rw [if_neg (by rw [hid]; exact fun h => h rfl)]

theorem applyCancel_success (now : ℕ) (rideId : String) (s : TrackState)
    (ride : Ride) (hcr : s.booking.currentRide = some ride)
    (hid : ride.id = rideId) :
    applyCancel now rideId s =
      ({ s with
          booking := rideBookingReducer
            (rideBookingReducer s.booking (.SET_CURRENT_RIDE none))
            (.ADD_TO_RIDE_HISTORY
              { ride with status := .cancelled, updatedAt := now })
          inProgressTimeoutRef := none
          arrivalAtPickupRef := false
          arrivalAtDestinationRef := false }, true) := by
  unfold applyCancel
  rw [cancelRide_success s.booking rideId now ride hcr hid]
  dsimp only
  rw [if_pos rfl]

theorem applySetCurrentRide_reset (now : ℕ) (payload : Option Ride)
    (s : TrackState) (hid : rideId? payload ≠ rideId? s.booking.currentRide) :
    (applySetCurrentRide now payload s).arrivalAtPickupRef = false ∧
    (applySetCurrentRide now payload s).arrivalAtDestinationRef = false ∧
    (applySetCurrentRide now payload s).inProgressTimeoutRef = none := by
  unfold applySetCurrentRide
  dsimp only
  rw [if_pos hid]
  split_ifs <;> exact ⟨rfl, rfl, rfl⟩

theorem applySetCurrentRide_no_reset (now : ℕ) (payload : Option Ride)
    (s : TrackState)
    (hid : ¬(rideId? payload ≠ rideId? s.booking.currentRide)) :
    (s.arrivalAtPickupRef = true →
      (applySetCurrentRide now payload s).arrivalAtPickupRef = true) ∧
    (s.arrivalAtDestinationRef = true →
      (applySetCurrentRide now payload s).arrivalAtDestinationRef = true) := by
  unfold applySetCurrentRide
  dsimp only
  rw [if_neg hid]
  constructor <;> intro h
  · have hm := arrivalEffect_flagP_mono now
      { s with
          booking := rideBookingReducer s.booking (.SET_CURRENT_RIDE payload)
          inProgressTimeoutRef := none } h
    split_ifs <;> simpa using hm
  · have hm := arrivalEffect_flagD_mono now
      { s with
          booking := rideBookingReducer s.booking (.SET_CURRENT_RIDE payload)
          inProgressTimeoutRef := none } h
    split_ifs <;> simpa using hm

theorem applyTick_timer_none (now : ℕ) (s : TrackState) (ride : Ride)
    (h1 : s.booking.currentRide = some ride)
    (h2 : s.driverLocation ≠ none)
    (h3 : getTargetLocation ride ≠ none) :
    (applyTick now s).inProgressTimeoutRef = none := by
  obtain ⟨prev, hprev⟩ := Option.ne_none_iff_exists'.mp h2
  obtain ⟨tgt, htgt⟩ := Option.ne_none_iff_exists'.mp h3
  rw [applyTick_eq now s ride prev tgt h1 hprev htgt]
  split_ifs with hf
  · rfl
  · rw [arrivalEffect_false now _ (by simpa using hf)]

/-- C5: the 3-second boarding timeout scheduled by the pickup-arrival effect
is cleared by the interval effect's cleanup on the very next commit, so after
any position tick no boarding timeout is pending; a timeout fire on an empty
ref is a no-op; consequently, from any state with no pending timeout and a
non-`in_progress` ride, no interleaving of position ticks and timeout
callbacks ever produces the `in_progress` status.  At the concrete failing
input (a requested ride with the driver at the pickup) the tick transitions
the ride to `arriving` and leaves no pending timeout behind. -/
theorem boarding_timer_never_fires :
    (∀ (now : ℕ) (s : TrackState) (ride : Ride),
      s.booking.currentRide = some ride → s.driverLocation ≠ none →
      getTargetLocation ride ≠ none →
      (applyTick now s).inProgressTimeoutRef = none) ∧
    (∀ (now : ℕ) (s : TrackState), s.inProgressTimeoutRef = none →
      applyTimerFire now s = s) ∧
    (∀ (evs : List SimEvent) (s : TrackState),
      s.inProgressTimeoutRef = none →
      (∀ r, s.booking.currentRide = some r → r.status ≠ .in_progress) →
      (runEvents evs s).inProgressTimeoutRef = none ∧
      ∀ r, (runEvents evs s).booking.currentRide = some r →
        r.status ≠ .in_progress) ∧
    ((applyTick 5 (trackStateWithRide .requested)).booking.currentRide =
      some { sampleRide .requested with status := .arriving, updatedAt := 5 } ∧
    (applyTick 5 (trackStateWithRide .requested)).inProgressTimeoutRef =
      none) :=
  ⟨applyTick_timer_none, applyTimerFire_none,
    fun evs s h1 h2 => runEvents_no_inprogress evs s h1 h2,
    ⟨applyTick_origin_requested.1, applyTick_origin_requested.2.2⟩⟩

/-- Witness for C5 at a requested ride with the driver at the pickup. -/
theorem boarding_timer_never_fires_witness :
    ((trackStateWithRide .requested).booking.currentRide =
      some (sampleRide .requested) ∧
    (trackStateWithRide .requested).driverLocation ≠ none ∧
    getTargetLocation (sampleRide .requested) ≠ none) ∧
    (applyTick 0 (trackStateWithRide .requested)).inProgressTimeoutRef =
      none :=
  ⟨⟨rfl, by simp [trackStateWithRide],
    by rw [getTargetLocation_pickup _ (Or.inl rfl)]; simp⟩,
    boarding_timer_never_fires.1 0 (trackStateWithRide .requested)
      (sampleRide .requested) rfl (by simp [trackStateWithRide])
      (by rw [getTargetLocation_pickup _ (Or.inl rfl)]; simp)⟩

/-- C6: each position-driven transition fires at most once per ride: the
pickup (resp. destination) arrival sets its flag together with the status
change; a set flag is never cleared by ticks or timeout fires; with the flag
set, further ticks in the matching status leave the booking state and flags
untouched (no duplicate transition); and both flags are reset (together with
the pending timeout) exactly by a `SET_CURRENT_RIDE` whose ride id differs
from the current one, while a dispatch keeping the ride id never clears a set
flag. -/
theorem arrival_transitions_once :
    (∀ (now : ℕ) (s : TrackState) (ride : Ride) (prev : MapLocation),
      s.booking.currentRide = some ride → s.driverLocation = some prev →
      s.arrivalAtPickupRef = false →
      (ride.status = .requested ∨ ride.status = .accepted) →
      calculateDistance
        (intervalStep ride s.arrivalAtPickupRef s.arrivalAtDestinationRef
          prev).latitude
        (intervalStep ride s.arrivalAtPickupRef s.arrivalAtDestinationRef
          prev).longitude
        ride.pickup.latitude ride.pickup.longitude < 0.05 →
      applyTick now s =
        { s with
            driverLocation := some (intervalStep ride s.arrivalAtPickupRef
              s.arrivalAtDestinationRef prev)
            booking := rideBookingReducer s.booking (.SET_CURRENT_RIDE
              (some { ride with status := .arriving, updatedAt := now }))
            arrivalAtPickupRef := true
            inProgressTimeoutRef := none }) ∧
    (∀ (now : ℕ) (s : TrackState) (ride : Ride) (prev : MapLocation),
      s.booking.currentRide = some ride → s.driverLocation = some prev →
      s.arrivalAtDestinationRef = false → ride.status = .in_progress →
      calculateDistance
        (intervalStep ride s.arrivalAtPickupRef s.arrivalAtDestinationRef
          prev).latitude
        (intervalStep ride s.arrivalAtPickupRef s.arrivalAtDestinationRef
          prev).longitude
        ride.destination.latitude ride.destination.longitude < 0.05 →
      applyTick now s =
        { s with
            driverLocation := some (intervalStep ride s.arrivalAtPickupRef
              s.arrivalAtDestinationRef prev)
            booking := rideBookingReducer s.booking (.SET_CURRENT_RIDE
              (some { ride with status := .completed, updatedAt := now }))
            arrivalAtDestinationRef := true
            inProgressTimeoutRef := none }) ∧
    (∀ (now : ℕ) (s : TrackState),
      (s.arrivalAtPickupRef = true →
        (applyTick now s).arrivalAtPickupRef = true ∧
        (applyTimerFire now s).arrivalAtPickupRef = true) ∧
      (s.arrivalAtDestinationRef = true →
        (applyTick now s).arrivalAtDestinationRef = true ∧
        (applyTimerFire now s).arrivalAtDestinationRef = true)) ∧
    (∀ (now : ℕ) (s : TrackState) (ride : Ride) (prev : MapLocation),
      s.booking.currentRide = some ride → s.driverLocation = some prev →
      s.arrivalAtPickupRef = true →
      (ride.status = .requested ∨ ride.status = .accepted) →
      applyTick now s =
        { s with
            driverLocation := some (intervalStep ride s.arrivalAtPickupRef
              s.arrivalAtDestinationRef prev)
            inProgressTimeoutRef := none }) ∧
    (∀ (now : ℕ) (s : TrackState) (ride : Ride) (prev : MapLocation),
      s.booking.currentRide = some ride → s.driverLocation = some prev →
      s.arrivalAtDestinationRef = true → ride.status = .in_progress →
      applyTick now s =
        { s with
            driverLocation := some (intervalStep ride s.arrivalAtPickupRef
              s.arrivalAtDestinationRef prev)
            inProgressTimeoutRef := none }) ∧
    (∀ (now : ℕ) (payload : Option Ride) (s : TrackState),
      rideId? payload ≠ rideId? s.booking.currentRide →
      (applySetCurrentRide now payload s).arrivalAtPickupRef = false ∧
      (applySetCurrentRide now payload s).arrivalAtDestinationRef = false ∧
      (applySetCurrentRide now payload s).inProgressTimeoutRef = none) ∧
    (∀ (now : ℕ) (payload : Option Ride) (s : TrackState),
      ¬(rideId? payload ≠ rideId? s.booking.currentRide) →
      (s.arrivalAtPickupRef = true →
        (applySetCurrentRide now payload s).arrivalAtPickupRef = true) ∧
      (s.arrivalAtDestinationRef = true →
        (applySetCurrentRide now payload s).arrivalAtDestinationRef =
          true)) := by
  refine ⟨applyTick_fire_pickup, applyTick_fire_dest, ?_, ?_, ?_,
    applySetCurrentRide_reset, applySetCurrentRide_no_reset⟩
  · intro now s
    exact ⟨fun h => ⟨applyTick_flagP_mono now s h,
        applyTimerFire_flagP_mono now s h⟩,
      fun h => ⟨applyTick_flagD_mono now s h,
        applyTimerFire_flagD_mono now s h⟩⟩
  · intro now s ride prev hcr hdl hflag hst
    apply applyTick_nofire now s ride prev ride.pickup hcr hdl
      (getTargetLocation_pickup ride hst)
    · rintro ⟨hf, -, -⟩
      rw [hflag] at hf
      exact Bool.noConfusion hf
    · rintro ⟨-, hs, -⟩
      rcases hst with h | h <;> rw [h] at hs <;> exact RideStatus.noConfusion hs
  · intro now s ride prev hcr hdl hflag hst
    apply applyTick_nofire now s ride prev ride.destination hcr hdl
      (getTargetLocation_dest ride hst)
    · rintro ⟨-, hs, -⟩
      rcases hs with hs | hs <;> rw [hst] at hs <;>
        exact RideStatus.noConfusion hs
    · rintro ⟨hf, -, -⟩
      rw [hflag] at hf
      exact Bool.noConfusion hf

/-- Witness for C6: a set pickup flag survives a tick on an arriving ride,
and dispatching a ride with a different id (here: clearing the ride) resets
the flags. -/
theorem arrival_transitions_once_witness :
    ({ trackStateWithRide .arriving with
        arrivalAtPickupRef := true }.arrivalAtPickupRef = true ∧
      rideId? none ≠
        rideId? (trackStateWithRide .requested).booking.currentRide) ∧
    (applyTick 0 { trackStateWithRide .arriving with
        arrivalAtPickupRef := true }).arrivalAtPickupRef = true ∧
    (applySetCurrentRide 0 none
      (trackStateWithRide .requested)).arrivalAtPickupRef = false := by
  have hid : rideId? none ≠
      rideId? (trackStateWithRide .requested).booking.currentRide := by
    simp [rideId?, trackStateWithRide, stateWithRide]
  exact ⟨⟨rfl, hid⟩,
    ((arrival_transitions_once.2.2.1 0 { trackStateWithRide .arriving with
        arrivalAtPickupRef := true }).1 rfl).1,
    (arrival_transitions_once.2.2.2.2.2.1 0 none
      (trackStateWithRide .requested) hid).1⟩

/-- C7 counterexample: when the in-progress ride completes (driver within
0.05 km of the destination), the ride becomes `completed` but the session's
ride history stays empty — completed rides are never appended to it. -/
theorem completed_ride_not_in_history :
    (applyTick 7 (trackStateWithRide .in_progress)).booking.currentRide =
      some { sampleRide .in_progress with
        status := .completed, updatedAt := 7 } ∧
    (applyTick 7 (trackStateWithRide .in_progress)).booking.rideHistory =
      [] :=
  ⟨applyTick_origin_in_progress.1, applyTick_origin_in_progress.2.1⟩

/-- C7 (amended): a successful cancellation marks the ride cancelled with a
fresh `updatedAt`, clears `currentRide` (so the ride is no longer mutated by
the simulation) and prepends it to the ride history; the
`in_progress → completed` transition stamps `updatedAt` but leaves the ride
history unchanged and keeps the completed ride as `currentRide`; the
`requested/accepted → arriving` transition also stamps `updatedAt`. -/
theorem ride_history_on_terminal :
    (∀ (now : ℕ) (rideId : String) (s : TrackState) (ride : Ride),
      s.booking.currentRide = some ride → ride.id = rideId →
      (applyCancel now rideId s).1.booking.rideHistory =
        { ride with status := .cancelled, updatedAt := now } ::
          s.booking.rideHistory ∧
      (applyCancel now rideId s).1.booking.currentRide = none ∧
      (applyCancel now rideId s).2 = true) ∧
    (∀ (now : ℕ) (s : TrackState) (ride : Ride) (prev : MapLocation),
      s.booking.currentRide = some ride → s.driverLocation = some prev →
      s.arrivalAtDestinationRef = false → ride.status = .in_progress →
      calculateDistance
        (intervalStep ride s.arrivalAtPickupRef s.arrivalAtDestinationRef
          prev).latitude
        (intervalStep ride s.arrivalAtPickupRef s.arrivalAtDestinationRef
          prev).longitude
        ride.destination.latitude ride.destination.longitude < 0.05 →
      (applyTick now s).booking.currentRide =
        some { ride with status := .completed, updatedAt := now } ∧
      (applyTick now s).booking.rideHistory = s.booking.rideHistory) ∧
    (∀ (now : ℕ) (s : TrackState) (ride : Ride) (prev : MapLocation),
      s.booking.currentRide = some ride → s.driverLocation = some prev →
      s.arrivalAtPickupRef = false →
      (ride.status = .requested ∨ ride.status = .accepted) →
      calculateDistance
        (intervalStep ride s.arrivalAtPickupRef s.arrivalAtDestinationRef
          prev).latitude
        (intervalStep ride s.arrivalAtPickupRef s.arrivalAtDestinationRef
          prev).longitude
        ride.pickup.latitude ride.pickup.longitude < 0.05 →
      (applyTick now s).booking.currentRide =
        some { ride with status := .arriving, updatedAt := now }) := by
  refine ⟨?_, ?_, ?_⟩
  · intro now rideId s ride hcr hid
    rw [applyCancel_success now rideId s ride hcr hid]
    exact ⟨rfl, rfl, rfl⟩
  · intro now s ride prev hcr hdl hflag hst hdist
    rw [applyTick_fire_dest now s ride prev hcr hdl hflag hst hdist]
    exact ⟨rfl, rfl⟩
  · intro now s ride prev hcr hdl hflag hst hdist
    rw [applyTick_fire_pickup now s ride prev hcr hdl hflag hst hdist]
    rfl

/-- Witness for C7: cancelling the current (completed) ride moves it into the
history. -/
theorem ride_history_on_terminal_witness :
    ((trackStateWithRide .completed).booking.currentRide =
      some (sampleRide .completed) ∧ (sampleRide .completed).id = "ride-1") ∧
    (applyCancel 9 "ride-1"
        (trackStateWithRide .completed)).1.booking.rideHistory =
      { sampleRide .completed with status := .cancelled, updatedAt := 9 } ::
        (trackStateWithRide .completed).booking.rideHistory ∧
    (applyCancel 9 "ride-1"
        (trackStateWithRide .completed)).1.booking.currentRide = none ∧
    (applyCancel 9 "ride-1" (trackStateWithRide .completed)).2 = true :=
  ⟨⟨rfl, rfl⟩,
    ride_history_on_terminal.1 9 "ride-1" (trackStateWithRide .completed)
      (sampleRide .completed) rfl rfl⟩
